import Mathlib

/-!
# lua-openssl: key objects, signatures and envelopes

A shallow embedding of `src/openssl.c` and `src/pkey.c`.

* Lua values on the C stack are `LuaVal`; a C function receives its arguments as
  a list (stack index 1 is the head) and finishes with `Except.ok vals` (the
  values it returns to Lua), `Except.error (Failure.error msg)` (a raised Lua
  error, `luaL_error` and the `luaL_check*` family) or
  `Except.error Failure.abort` (a failed C `assert`).
* OpenSSL is not part of the repository: every primitive the source calls is a
  field of the structure `OpenSSL`, named after the C function.
* Allocation (`malloc`, `EVP_PKEY_new`, `RSA_new`, `BIO_new`, ...) is taken to
  succeed.
* A C array is a `CArray`: its allocated size and the log of stores made into
  it.  A slot no store reached reads as `none`; what is computed from such a
  slot, or read from a freed buffer, is the Lua value `LuaVal.indet`.  It marks
  undefined behaviour of the source, not a value the source is known to give.
-/

namespace LuaOpenSSL

/-! ## Key material -/

/-- RSA key material; `none` is a NULL `BIGNUM*`. -/
structure RSA where
  n : Option Nat
  e : Option Nat
  d : Option Nat
  p : Option Nat
  q : Option Nat
  dmp1 : Option Nat
  dmq1 : Option Nat
  iqmp : Option Nat
  deriving DecidableEq, Repr

/-- DSA key material. -/
structure DSA where
  p : Option Nat
  q : Option Nat
  g : Option Nat
  priv_key : Option Nat
  pub_key : Option Nat
  deriving DecidableEq, Repr

/-- DH key material. -/
structure DH where
  p : Option Nat
  g : Option Nat
  priv_key : Option Nat
  pub_key : Option Nat
  deriving DecidableEq, Repr

/-- EC key: the curve identifier and whether a key pair was generated on it. -/
structure EC_KEY where
  curve : Nat
  generated : Bool
  deriving DecidableEq, Repr

/-- The union `pkey->pkey` of an `EVP_PKEY`: one pointer, read through the member
the type tag selects. -/
inductive KeyPtr
  | null
  | rsa (r : RSA)
  | dsa (d : DSA)
  | dh (d : DH)
  | ec (k : EC_KEY)
  deriving DecidableEq, Repr

/-- The key object `EVP_PKEY`: a type tag and the material pointer. -/
structure EVP_PKEY where
  type : Nat
  pkey : KeyPtr
  deriving DecidableEq, Repr

def EVP_PKEY_NONE : Nat := 0
def EVP_PKEY_RSA : Nat := 6
def EVP_PKEY_RSA2 : Nat := 19
def EVP_PKEY_DSA : Nat := 116
def EVP_PKEY_DSA1 : Nat := 67
def EVP_PKEY_DSA2 : Nat := 66
def EVP_PKEY_DSA3 : Nat := 113
def EVP_PKEY_DSA4 : Nat := 70
def EVP_PKEY_DH : Nat := 28
def EVP_PKEY_EC : Nat := 408
def NID_secp192k1 : Nat := 711

/-- The member `pkey->pkey.rsa`; `none` when the pointer is NULL (a key whose
union holds other material cannot be built through `EVP_PKEY_assign`). -/
def EVP_PKEY.rsa (k : EVP_PKEY) : Option RSA :=
  match k.pkey with
  | .rsa r => some r
  | _ => none

/-- The member `pkey->pkey.dsa`. -/
def EVP_PKEY.dsa (k : EVP_PKEY) : Option DSA :=
  match k.pkey with
  | .dsa d => some d
  | _ => none

/-- The member `pkey->pkey.dh`. -/
def EVP_PKEY.dh (k : EVP_PKEY) : Option DH :=
  match k.pkey with
  | .dh d => some d
  | _ => none

/-- Library function `EVP_PKEY_type`: the base type of a type tag. -/
def EVP_PKEY_type (t : Nat) : Nat :=
  if t = EVP_PKEY_RSA ∨ t = EVP_PKEY_RSA2 then EVP_PKEY_RSA
  else if t = EVP_PKEY_DSA ∨ t = EVP_PKEY_DSA1 ∨ t = EVP_PKEY_DSA2 ∨ t = EVP_PKEY_DSA3
      ∨ t = EVP_PKEY_DSA4 then EVP_PKEY_DSA
  else if t = EVP_PKEY_DH then EVP_PKEY_DH
  else if t = EVP_PKEY_EC then EVP_PKEY_EC
  else 0

/-- Library function `EVP_PKEY_new`: a fresh key object, no type, no material. -/
def EVP_PKEY_new : EVP_PKEY := { type := EVP_PKEY_NONE, pkey := .null }

/-- Library function `EVP_PKEY_assign` (`EVP_PKEY_assign_RSA` and its siblings):
sets the tag and the pointer, and reports whether the pointer was non-NULL. -/
def EVP_PKEY_assign (_pkey : EVP_PKEY) (type : Nat) (key : KeyPtr) : EVP_PKEY × Bool :=
  ({ type := type, pkey := key }, decide (key ≠ .null))

/-- Digest handle `EVP_MD`. -/
structure EVP_MD where
  nid : Nat
  deriving DecidableEq, Repr

/-- Cipher handle `EVP_CIPHER`. -/
structure EVP_CIPHER where
  nid : Nat
  deriving DecidableEq, Repr

/-- Certificate `X509`, as far as this code looks into it: the subject public key. -/
structure X509 where
  pubkey : Option EVP_PKEY
  deriving DecidableEq, Repr

/-! ## Lua values and the C API -/

/-- What a userdata of one of the module classes points to. -/
inductive Obj
  | null
  | pkey (k : EVP_PKEY)
  | md (m : EVP_MD)
  | cipher (c : EVP_CIPHER)
  | x509 (c : X509)
  deriving DecidableEq, Repr

/-- Lua values.  A table is its array part (indices 1..n) and its string-keyed
fields; numbers are integers.  `indet` is a string whose bytes or length the C
code took from memory it never initialised or had already freed. -/
inductive LuaVal
  | nil
  | boolean (b : Bool)
  | number (n : Int)
  | str (s : String)
  | table (arr : List LuaVal) (fields : List (String × LuaVal))
  | userdata (cls : String) (o : Obj)
  | indet

/-- How a C function of the module stops without returning: a raised Lua error,
a failed `assert`, or `undef` when it is handed an indeterminate string, on
which the source decides nothing. -/
inductive Failure
  | error (msg : String)
  | abort
  | undef
  deriving DecidableEq, Repr

/-- Outcome of a C function of the module: the values it returns or a failure. -/
abbrev LuaResult := Except Failure (List LuaVal)

/-- Raise a Lua error (`luaL_error`). -/
def luaL_error {α : Type} (msg : String) : Except Failure α :=
  .error (.error msg)

/-- The value at stack index `n` (1-based); `none` past the top. -/
def lua_arg (args : List LuaVal) (n : Nat) : Option LuaVal :=
  if n = 0 then none else args.get? (n - 1)

def lua_isnoneornil (args : List LuaVal) (n : Nat) : Bool :=
  match lua_arg args n with
  | none => true
  | some .nil => true
  | _ => false

/-- Lua API `lua_isstring`: strings and numbers. -/
def lua_isstring (v : Option LuaVal) : Bool :=
  match v with
  | some (.str _) => true
  | some (.number _) => true
  | some .indet => true
  | _ => false

def lua_isuserdata (v : Option LuaVal) : Bool :=
  match v with
  | some (.userdata _ _) => true
  | _ => false

def lua_istable (v : Option LuaVal) : Bool :=
  match v with
  | some (.table _ _) => true
  | _ => false

def lua_toboolean (v : Option LuaVal) : Bool :=
  match v with
  | none => false
  | some .nil => false
  | some (.boolean b) => b
  | _ => true

/-- Lua API `luaL_checklstring`: the string at an index (a number is converted),
else a raised error. -/
def luaL_checklstring (v : Option LuaVal) : Except Failure String :=
  match v with
  | some (.str s) => pure s
  | some (.number k) => pure (toString k)
  | some .indet => .error .undef
  | _ => luaL_error "string expected"

/-- Lua API `luaL_optlstring` with default NULL. -/
def luaL_optlstring (v : Option LuaVal) : Except Failure (Option String) :=
  match v with
  | none => pure none
  | some .nil => pure none
  | w => some <$> luaL_checklstring w

/-- Lua API `luaL_optint`. -/
def luaL_optint (v : Option LuaVal) (dflt : Int) : Except Failure Int :=
  match v with
  | none => pure dflt
  | some .nil => pure dflt
  | some (.number k) => pure k
  | some (.str s) =>
    match s.toInt? with
    | some k => pure k
    | none => luaL_error "number expected"
  | _ => luaL_error "number expected"

/-- Lua API `lua_getfield` on a value: the field of a table, a raised error on a
value that cannot be indexed. -/
def lua_getfield (v : Option LuaVal) (name : String) : Except Failure LuaVal :=
  match v with
  | some (.table _ fields) =>
    match fields.find? (fun kv => kv.1 == name) with
    | some kv => pure kv.2
    | none => pure .nil
  | _ => luaL_error "attempt to index a non-table value"

/-- Lua API `lua_objlen` on a table: the length of the array part. -/
def lua_objlen (arr : List LuaVal) : Nat := arr.length

/-- Lua API `lua_rawgeti` on a table: element `i` (1-based), nil when absent. -/
def lua_rawgeti (arr : List LuaVal) (i : Nat) : LuaVal :=
  if i = 0 then .nil else (arr.get? (i - 1)).getD .nil

/-- Lua API `lua_pushlstring(L, buf, len)`: the first `len` bytes of `buf`. -/
def lua_pushlstring (buf : String) (len : Nat) : LuaVal :=
  .str (String.mk (buf.data.take len))

/-- Modelled from the spec: `auxiliar_getclassudata` is defined in `auxiliar.c`,
which is not among the sources.  Section 6 has every produced value registered
as an opaque handle of its class; this is the test whether the value at an index
is a handle of the given class: its object if so, `none` (NULL) for anything
else, and it never raises. -/
def auxiliar_getclassudata (cls : String) (v : Option LuaVal) : Option Obj :=
  match v with
  | some (.userdata c o) => if c = cls then some o else none
  | _ => none

/-- Modelled from the spec: the macro `CHECK_OBJECT(n, type, name)` is defined
in `openssl.h`, which is not among the sources.  It yields the pointer held by
the handle of class `name` at index `n`; any other value is an input-shape error
(section 7: wrong argument type, raised immediately). -/
def CHECK_OBJECT (v : Option LuaVal) (cls : String) : Except Failure Obj :=
  match v with
  | some (.userdata c o) => if c = cls then pure o else luaL_error (cls ++ " expected")
  | _ => luaL_error (cls ++ " expected")

/-- The pointer of `CHECK_OBJECT` read as `EVP_PKEY*`; `none` is NULL. -/
def Obj.asPkey (o : Obj) : Option EVP_PKEY :=
  match o with
  | .pkey k => some k
  | _ => none

/-- The pointer of `CHECK_OBJECT` read as `const EVP_MD*`. -/
def Obj.asMd (o : Obj) : Option EVP_MD :=
  match o with
  | .md m => some m
  | _ => none

/-- The pointer of `CHECK_OBJECT` read as `const EVP_CIPHER*`. -/
def Obj.asCipher (o : Obj) : Option EVP_CIPHER :=
  match o with
  | .cipher c => some c
  | _ => none

/-- The pointer of `CHECK_OBJECT` read as `X509*`. -/
def Obj.asX509 (o : Obj) : Option X509 :=
  match o with
  | .x509 c => some c
  | _ => none

/-- Modelled from the spec: the macro `PUSH_OBJECT(o, name)` is defined in
`openssl.h`, which is not among the sources.  It registers the pointer as a new
opaque handle of class `name` (section 6). -/
def PUSH_OBJECT (k : EVP_PKEY) (cls : String) : LuaVal :=
  .userdata cls (.pkey k)

/-- C library `strcasecmp(a, b) == 0`. -/
def strcasecmp_eq (a b : String) : Bool :=
  a.data.map Char.toLower == b.data.map Char.toLower

/-! ## pkey.c: the private-key predicate -/

/-- Source `openssl_is_private_key` (pkey.c 106-147): 1 private, 0 public,
-1 for a type the switch does not know; a failed `assert` aborts. -/
def openssl_is_private_key (pkey : Option EVP_PKEY) : Except Failure Int :=
  match pkey with
  | none => .error .abort
  | some k =>
    if k.type = EVP_PKEY_RSA ∨ k.type = EVP_PKEY_RSA2 then
      match k.rsa with
      | none => .error .abort
      | some r => if r.p = none ∨ r.q = none then pure 0 else pure 1
    else if k.type = EVP_PKEY_DSA ∨ k.type = EVP_PKEY_DSA1 ∨ k.type = EVP_PKEY_DSA2
        ∨ k.type = EVP_PKEY_DSA3 ∨ k.type = EVP_PKEY_DSA4 then
      match k.dsa with
      | none => .error .abort
      | some d => if d.p = none ∨ d.q = none ∨ d.priv_key = none then pure 0 else pure 1
    else if k.type = EVP_PKEY_DH then
      match k.dh with
      | none => .error .abort
      | some d => if d.p = none ∨ d.priv_key = none then pure 0 else pure 1
    else pure (-1)

/-- Source `openssl_pkey_is_private` (pkey.c 634-645). -/
def openssl_pkey_is_private (args : List LuaVal) : LuaResult := do
  let pkey ← CHECK_OBJECT (lua_arg args 1) "openssl.evp_pkey"
  let priv ← openssl_is_private_key pkey.asPkey
  if priv = 0 then pure [.boolean false]
  else if priv = 1 then pure [.boolean true]
  else luaL_error "openssl.evp_pkey is not support"

/-! ## The OpenSSL primitives -/

/-- A call of one of the PEM writers used by `openssl_pkey_export`, with the
arguments the source passes: the key or its material, the cipher (`none` is
NULL), the passphrase (`none` is NULL) and the passphrase length. -/
inductive PemWrite
  | PrivateKey (key : EVP_PKEY) (cipher : Option EVP_CIPHER) (passphrase : Option String)
      (len : Nat)
  | PUBKEY (key : EVP_PKEY)
  | RSAPrivateKey (rsa : Option RSA) (cipher : Option EVP_CIPHER) (passphrase : Option String)
      (len : Nat)
  | RSAPublicKey (rsa : Option RSA)
  | DSAPrivateKey (dsa : Option DSA) (cipher : Option EVP_CIPHER) (passphrase : Option String)
      (len : Nat)
  | DSA_PUBKEY (dsa : Option DSA)
  | DHparams (dh : Option DH)
  deriving DecidableEq, Repr

/-- The OpenSSL functions the two source files call, one field per function.
A cipher context is the pair of the cipher and the content key; `none` is the
return value 0 of a function that reports failure. -/
structure OpenSSL where
  EVP_get_digestbyname : String → Option EVP_MD
  /-- The handle `EVP_get_digestbynid(OPENSSL_ALGO_SHA1)`; the constant is
  defined in `openssl.h`, not among the sources, and by section 4.4 of the
  specification names SHA-1. -/
  sha1 : EVP_MD
  EVP_get_cipherbyname : String → Option EVP_CIPHER
  EVP_rc4 : EVP_CIPHER
  EVP_des_ede3_cbc : EVP_CIPHER
  EVP_PKEY_size : EVP_PKEY → Nat
  /-- Digest `data` and sign with the key: `EVP_SignInit/Update/Final`. -/
  EVP_SignFinal : EVP_MD → String → Option EVP_PKEY → Option String
  /-- Digest `data` and check `signature`: `EVP_VerifyInit/Update/Final`. -/
  EVP_VerifyFinal : EVP_MD → String → String → Option EVP_PKEY → Int
  EVP_EncryptInit : EVP_CIPHER → Bool
  /-- The fresh content key `EVP_SealInit` draws and installs; `none` when that
  fails and `EVP_SealInit` returns 0. -/
  EVP_CIPHER_CTX_rand_key : EVP_CIPHER → Option String
  /-- Public-key encryption of the content key for one recipient. -/
  EVP_PKEY_encrypt_old : EVP_PKEY → String → Option String
  EVP_SealUpdate : EVP_CIPHER → String → String → Option String
  /-- The bytes `EVP_SealFinal` appends; the source ignores its return value. -/
  EVP_SealFinal : EVP_CIPHER → String → String → String
  /-- Recover the content key from `ekey` with the private key. -/
  EVP_OpenInit : EVP_CIPHER → String → Option EVP_PKEY → Option String
  EVP_OpenUpdate : EVP_CIPHER → String → String → Option String
  EVP_OpenFinal : EVP_CIPHER → String → String → Option String
  /-- The length `DH_compute_key` reports and the bytes it wrote. -/
  DH_compute_key : Nat → DH → Int × String
  BN_bin2bn : String → Nat
  /-- What the called PEM writer leaves in the memory BIO; `none` when it
  returns 0. -/
  PEM_write : PemWrite → Option String
  BN_hex2bn : String → Option Nat
  PEM_read_PUBKEY : String → Option EVP_PKEY
  d2i_PUBKEY : String → Option EVP_PKEY
  PEM_read_PrivateKey : String → Option String → Option EVP_PKEY
  d2i_PrivateKey : String → Option EVP_PKEY
  RSA_generate_key : Int → Int → Option RSA
  DSA_generate_parameters : Int → Option String → Option DSA
  /-- Key-pair generation on DSA parameters; `none` is the return value 0. -/
  DSA_generate_key : Option DSA → Option DSA
  DH_generate_parameters_ex : Int → Int → Option DH
  /-- Key-pair generation on DH parameters; `none` is the return value 0. -/
  DH_generate_key : DH → Option DH
  /-- Key-pair generation on the fixed curve; `none` is the return value 0. -/
  EC_KEY_generate_key : Nat → Option EC_KEY
  /-- The constant `OPENSSL_VERSION_NUMBER` of the library headers the module is
  compiled against. -/
  OPENSSL_VERSION_NUMBER : Nat
  /-- The bytes `RSA_private_encrypt(dlen, data, to, rsa, padding)` writes to
  `to`; the call returns their number, and -1 (`none`) on error. -/
  RSA_private_encrypt : String → Option RSA → Int → Option String
  /-- The bytes `RSA_public_encrypt` writes; `none` is the return value -1. -/
  RSA_public_encrypt : String → Option RSA → Int → Option String
  /-- The bytes `RSA_private_decrypt` writes; `none` is the return value -1. -/
  RSA_private_decrypt : String → Option RSA → Int → Option String
  /-- The bytes `RSA_public_decrypt` writes; `none` is the return value -1. -/
  RSA_public_decrypt : String → Option RSA → Int → Option String

/-! ## openssl.c: sign and verify -/

/-- The digest block of `openssl_sign` (openssl.c 207-217, argument 3) and of
`openssl_verify` (openssl.c 247-257, argument 4). -/
def digest_arg (lib : OpenSSL) (args : List LuaVal) (n : Nat) (msg : String) :
    Except Failure EVP_MD := do
  let mdtype ←
    if args.length > n - 1 then
      if lua_isstring (lua_arg args n) then do
        let name ← luaL_checklstring (lua_arg args n)
        pure (lib.EVP_get_digestbyname name)
      else if lua_isuserdata (lua_arg args n) then do
        let o ← CHECK_OBJECT (lua_arg args n) "openssl.evp_digest"
        pure o.asMd
      else luaL_error msg
    else pure none
  match mdtype with
  | some md => pure md
  | none => pure lib.sha1

/-- Source `openssl_sign` (openssl.c 193-231). -/
def openssl_sign (lib : OpenSSL) (args : List LuaVal) : LuaResult := do
  let data ← luaL_checklstring (lua_arg args 1)
  let pkey ← CHECK_OBJECT (lua_arg args 2) "openssl.evp_pkey"
  let mdtype ← digest_arg lib args 3 "#3 must be nil, string, or openssl.evp_digest object"
  match lib.EVP_SignFinal mdtype data pkey.asPkey with
  | some sig => pure [lua_pushlstring sig sig.length]
  | none => pure []

/-- Source `openssl_verify` (openssl.c 236-267). -/
def openssl_verify (lib : OpenSSL) (args : List LuaVal) : LuaResult := do
  let data ← luaL_checklstring (lua_arg args 1)
  let signature ← luaL_checklstring (lua_arg args 2)
  let pkey ← CHECK_OBJECT (lua_arg args 3) "openssl.evp_pkey"
  let mdtype ← digest_arg lib args 4 "#4 must be nil, string, or openssl.evp_digest object"
  let err := lib.EVP_VerifyFinal mdtype data signature pkey.asPkey
  pure [.number err]

/-! ## openssl.c: seal and open -/

/-- The cipher block of `openssl_seal` (openssl.c 295-304, argument 3) and of
`openssl_open` (openssl.c 381-390, argument 4). -/
def cipher_arg (lib : OpenSSL) (args : List LuaVal) (n : Nat) (msg : String) :
    Except Failure EVP_CIPHER := do
  let cipher ←
    if args.length > n - 1 then
      if lua_isstring (lua_arg args n) then do
        let name ← luaL_checklstring (lua_arg args n)
        pure (lib.EVP_get_cipherbyname name)
      else if lua_isuserdata (lua_arg args n) then do
        let o ← CHECK_OBJECT (lua_arg args n) "openssl.evp_cipher"
        pure o.asCipher
      else luaL_error msg
    else pure none
  match cipher with
  | some c => pure c
  | none => pure lib.EVP_rc4

/-- A C array obtained from `malloc`: the number of slots allocated and the
stores made through it, newest first, each with the index it went to. -/
structure CArray (α : Type) where
  size : Nat
  stores : List (Nat × α)

/-- The array right after `malloc(n * sizeof(*a))` (for `eks`, after the `memset`). -/
def CArray.alloc {α : Type} (n : Nat) : CArray α := { size := n, stores := [] }

/-- The store `a[i] = v`. -/
def CArray.set {α : Type} (a : CArray α) (i : Nat) (v : α) : CArray α :=
  { size := a.size, stores := (i, v) :: a.stores }

/-- The read `a[i]`: the last value stored at `i`, `none` when no store went there. -/
def CArray.get {α : Type} (a : CArray α) (i : Nat) : Option α :=
  match a.stores.find? (fun s => s.1 == i) with
  | some s => some s.2
  | none => none

/-- The indices the stores went to, oldest first. -/
def CArray.written {α : Type} (a : CArray α) : List Nat :=
  (a.stores.map (fun s => s.1)).reverse

/-- The arrays `pkeys` and `eks` of `openssl_seal`; a buffer of `eks` is kept as
its capacity. -/
structure SealArrays where
  pkeys : CArray EVP_PKEY
  eks : CArray Nat

/-- One pass of the body of the key loop of `openssl_seal` (openssl.c 315-322). -/
def seal_collect_step (lib : OpenSSL) (tbl : List LuaVal) (st : SealArrays) (i : Nat) :
    Except Failure SealArrays := do
  let o ← CHECK_OBJECT (some (lua_rawgeti tbl i)) "openssl.evp_pkey"
  match o.asPkey with
  | none => luaL_error ("not a public key (" ++ toString (i + 1) ++ "th member of pubkeys)")
  | some k =>
    pure { pkeys := st.pkeys.set i k, eks := st.eks.set i (lib.EVP_PKEY_size k + 1) }

/-- The allocations and the key loop `for(i=1; i<=nkeys; i++)` of `openssl_seal`
(openssl.c 306-323). -/
def seal_collect (lib : OpenSSL) (tbl : List LuaVal) (nkeys : Nat) : Except Failure SealArrays :=
  (List.range' 1 nkeys).foldlM (seal_collect_step lib tbl)
    { pkeys := CArray.alloc nkeys, eks := CArray.alloc nkeys }

/-- The recipient loop of the library function `EVP_SealInit`: for each slot in
turn the content key encrypted under `pubk[i]` is written to `ek[i]`; the first
failing encryption stops the loop.  On a slot whose key or buffer was never
stored the library call reads an uninitialised pointer or writes through NULL,
which is undefined behaviour: such a slot yields no determinate blob (`none`). -/
def seal_encrypt_keys (lib : OpenSSL) (key : String) :
    List (Option EVP_PKEY × Option Nat) → List (Option String)
  | [] => []
  | (some k, some _) :: rest =>
    match lib.EVP_PKEY_encrypt_old k key with
    | some blob => some blob :: seal_encrypt_keys lib key rest
    | none => none :: rest.map (fun _ => none)
  | _ :: rest => none :: seal_encrypt_keys lib key rest

/-- Library function `EVP_SealInit(ctx, cipher, ek, ekl, iv, pubk, npubk)`: it
reads the slots `0 .. npubk-1` of `pubk` and `ek`.  `none` is the return value 0;
otherwise the content key and what each `ek[i]` holds afterwards. -/
def EVP_SealInit (lib : OpenSSL) (cipher : EVP_CIPHER) (arrays : SealArrays) (npubk : Nat) :
    Option (String × List (Option String)) :=
  match lib.EVP_CIPHER_CTX_rand_key cipher with
  | none => none
  | some key =>
    some (key, seal_encrypt_keys lib key
      ((List.range npubk).map (fun i => (arrays.pkeys.get i, arrays.eks.get i))))

/-- Whether every slot `0 .. nkeys-1` of `pkeys` and of `eks` holds a value the
key loop stored.  These are the slots `EVP_SealInit` reads and writes through
(openssl.c 331) and the result loop stores through and reads (openssl.c
343-349); where the answer is `false` the source dereferences an uninitialised
or NULL pointer there, which is undefined behaviour. -/
def seal_slots_stored (arrays : SealArrays) (nkeys : Nat) : Bool :=
  (List.range nkeys).all (fun i => (arrays.pkeys.get i).isSome && (arrays.eks.get i).isSome)

/-- The value pushed for `eks[i]` by the result loop (openssl.c 343-349).  For a
slot without a determinate blob the source stores through and pushes from a
pointer that is NULL or was never written to, which is undefined behaviour; the
entry `.indet` marks that, it is not a value the source is known to return. -/
def seal_blob_value (blob : Option String) : LuaVal :=
  match blob with
  | some b => lua_pushlstring b b.length
  | none => .indet

/-- The locals of `openssl_seal` that are live once `EVP_SealUpdate` has
returned (openssl.c 335): the cipher, the content key inside the context, the
data, what each `eks[i]` holds for `i` in `0 .. nkeys-1`, and the `len1` bytes
written to `buf`. -/
structure SealState where
  cipher : EVP_CIPHER
  key : String
  data : String
  eks : List (Option String)
  out1 : String

/-- Source `openssl_seal` up to and including `EVP_SealUpdate` (openssl.c 273-334). -/
def seal_begin (lib : OpenSSL) (args : List LuaVal) : Except Failure SealState := do
  let data ← luaL_checklstring (lua_arg args 1)
  let tbl ←
    match lua_arg args 2 with
    | some (.table arr _) => pure arr
    | _ => luaL_error "table expected"
  let nkeys := lua_objlen tbl
  if nkeys = 0 then
    luaL_error "#2 argument to openssl_seal() must be a non-empty table"
  else
    let cipher ← cipher_arg lib args 3
      "#3 argument must be nil, string, or openssl.evp_cipher object"
    let arrays ← seal_collect lib tbl nkeys
    if ¬ lib.EVP_EncryptInit cipher then
      luaL_error "EVP_EncryptInit failed"
    else
      match EVP_SealInit lib cipher arrays nkeys with
      | none => luaL_error "EVP_SealInit failed"
      | some (key, eks) =>
        match lib.EVP_SealUpdate cipher key data with
        | none => luaL_error "EVP_SealInit failed"
        | some out1 =>
          pure { cipher := cipher, key := key, data := data, eks := eks, out1 := out1 }

/-- The bytes `EVP_SealFinal` writes at `buf + len1` (openssl.c 336). -/
def seal_out2 (lib : OpenSSL) (st : SealState) : String :=
  lib.EVP_SealFinal st.cipher st.key st.data

/-- The sum `len1 + len2` tested at openssl.c 338. -/
def seal_total (lib : OpenSSL) (st : SealState) : Nat :=
  st.out1.length + (seal_out2 lib st).length

/-- Source `openssl_seal` from `EVP_SealFinal` on (openssl.c 336-358): the values
returned. -/
def seal_end (lib : OpenSSL) (st : SealState) : List LuaVal :=
  let out2 := seal_out2 lib st
  let len1 := st.out1.length
  let len2 := out2.length
  if len1 + len2 > 0 then
    [lua_pushlstring (st.out1 ++ out2) (len1 + len2), .table (st.eks.map seal_blob_value) []]
  else []

/-- Source `openssl_seal` (openssl.c 273-359). -/
def openssl_seal (lib : OpenSSL) (args : List LuaVal) : LuaResult := do
  let st ← seal_begin lib args
  pure (seal_end lib st)

/-- The value `lua_pushlstring(L, buf, len1 + len2)` at the end of `openssl_open`
(openssl.c 402-403): `buf` is `none` once freed, `len` is `none` when `len1` or
`len2` was never assigned.  No byte is read when the length is 0. -/
def open_push (buf : Option String) (len : Option Nat) : LuaVal :=
  match len with
  | none => .indet
  | some 0 => .str ""
  | some n =>
    match buf with
    | some b => lua_pushlstring b n
    | none => .indet

/-- Source `openssl_open` (openssl.c 364-406). -/
def openssl_open (lib : OpenSSL) (args : List LuaVal) : LuaResult := do
  let data ← luaL_checklstring (lua_arg args 1)
  let ekey ← luaL_checklstring (lua_arg args 2)
  let pkey ← CHECK_OBJECT (lua_arg args 3) "openssl.evp_pkey"
  let cipher ← cipher_arg lib args 4
    "#4 argument must be nil, string, or openssl.evp_cipher object"
  let (buf, len) : Option String × Option Nat :=
    match lib.EVP_OpenInit cipher ekey pkey.asPkey with
    | none => (none, none)
    | some key =>
      match lib.EVP_OpenUpdate cipher key data with
      | none => (none, none)
      | some out1 =>
        match lib.EVP_OpenFinal cipher key data with
        | none => (none, none)
        | some out2 =>
          if out1.length + out2.length = 0 then (none, some 0)
          else (some (out1 ++ out2), some (out1.length + out2.length))
  pure [open_push buf len]

/-! ## openssl.c: Diffie-Hellman key agreement -/

/-- Source `openssl_dh_compute_key` (openssl.c 660-693). -/
def openssl_dh_compute_key (lib : OpenSSL) (args : List LuaVal) : LuaResult := do
  let pub_str ← luaL_checklstring (lua_arg args 1)
  let pkey ← CHECK_OBJECT (lua_arg args 2) "openssl.evp_pkey"
  match pkey.asPkey with
  | none => luaL_error "paramater 2 must dh key"
  | some k =>
    if EVP_PKEY_type k.type ≠ EVP_PKEY_DH then luaL_error "paramater 2 must dh key"
    else
      match k.dh with
      | none => luaL_error "paramater 2 must dh key"
      | some dh =>
        let pub := lib.BN_bin2bn pub_str
        let (len, data) := lib.DH_compute_key pub dh
        if len ≥ 0 then pure [lua_pushlstring data len.toNat]
        else pure []

/-! ## pkey.c: reading a key -/

/-- Source `openssl_pkey_read` (pkey.c 40-101). -/
def openssl_pkey_read (lib : OpenSSL) (args : List LuaVal) : LuaResult := do
  let top := args.length
  let public_key := if top > 1 then lua_toboolean (lua_arg args 2) else true
  let passphrase ←
    if top > 2 then some <$> luaL_checklstring (lua_arg args 3) else pure none
  let (key, cert) ←
    if (auxiliar_getclassudata "openssl.evp_pkey" (lua_arg args 1)).isSome then do
      let o ← CHECK_OBJECT (lua_arg args 1) "openssl.evp_pkey"
      let is_priv ← openssl_is_private_key o.asPkey
      if public_key ∧ is_priv ≠ 0 then
        luaL_error "evp_pkey object is not a public key"
      else pure (o.asPkey, (none : Option X509))
    else if (auxiliar_getclassudata "openssl.x509" (lua_arg args 1)).isSome then do
      if ¬ public_key then
        luaL_error "evp_pkey object is not a private key"
      else
        let o ← CHECK_OBJECT (lua_arg args 1) "openssl.x509"
        pure (o.asX509.bind (fun c => c.pubkey), o.asX509)
    else if lua_isstring (lua_arg args 1) then do
      let str ← luaL_checklstring (lua_arg args 1)
      if public_key then
        match lib.PEM_read_PUBKEY str with
        | some k => pure (some k, none)
        | none => pure (lib.d2i_PUBKEY str, none)
      else
        match lib.PEM_read_PrivateKey str passphrase with
        | some k => pure (some k, none)
        | none => pure (lib.d2i_PrivateKey str, none)
    else pure (none, none)
  let key :=
    if public_key ∧ cert.isSome ∧ key.isNone then cert.bind (fun c => c.pubkey) else key
  match key with
  | some k => pure [PUSH_OBJECT k "openssl.evp_pkey"]
  | none => pure [.nil]

/-! ## pkey.c: building a key -/

/-- The macro `OPENSSL_PKEY_SET_BN(n, _type, _name)` (pkey.c 160-166): the field
`_name` of the table, converted by `BN_hex2bn` when it is a string; `old` is what
the struct member held. -/
def OPENSSL_PKEY_SET_BN (lib : OpenSSL) (tbl : LuaVal) (name : String) (old : Option Nat) :
    Except Failure (Option Nat) := do
  let v ← lua_getfield (some tbl) name
  if lua_isstring (some v) then do
    let bn ← luaL_checklstring (some v)
    match lib.BN_hex2bn bn with
    | some x => pure (some x)
    | none => pure old
  else pure old

/-- The string branch of `openssl_pkey_new` (pkey.c 177-238): generation by
algorithm name, in a build where `EVP_PKEY_EC` is defined. The result is the key
object `pkey` points to. -/
def pkey_new_generate (lib : OpenSSL) (args : List LuaVal) : Except Failure EVP_PKEY := do
  let alg ←
    match lua_arg args 1 with
    | none => pure "rsa"
    | some .nil => pure "rsa"
    | v => luaL_checklstring v
  if strcasecmp_eq alg "rsa" then do
    let bits ← luaL_optint (lua_arg args 2) 1024
    let e ← luaL_optint (lua_arg args 3) 65537
    let rsa := lib.RSA_generate_key bits e
    let ptr := match rsa with
      | some r => KeyPtr.rsa r
      | none => KeyPtr.null
    pure (EVP_PKEY_assign EVP_PKEY_new EVP_PKEY_RSA ptr).1
  else if strcasecmp_eq alg "dsa" then do
    let bits ← luaL_optint (lua_arg args 2) 1024
    let seed ← luaL_optlstring (lua_arg args 3)
    let dsa := lib.DSA_generate_parameters bits seed
    match lib.DSA_generate_key dsa with
    | none => luaL_error "DSA_generate_key failed"
    | some d => pure (EVP_PKEY_assign EVP_PKEY_new EVP_PKEY_DSA (.dsa d)).1
  else if strcasecmp_eq alg "dh" then do
    let bits ← luaL_optint (lua_arg args 2) 512
    let generator ← luaL_optint (lua_arg args 3) 2
    match lib.DH_generate_parameters_ex bits generator with
    | none => luaL_error "DH_generate_parameters_ex failed"
    | some dh =>
      let dh := (lib.DH_generate_key dh).getD dh
      pure (EVP_PKEY_assign EVP_PKEY_new EVP_PKEY_DH (.dh dh)).1
  else if strcasecmp_eq alg "ec" then do
    let _bits ← luaL_optint (lua_arg args 2) 1024
    match lib.EC_KEY_generate_key NID_secp192k1 with
    | none => luaL_error "EC_KEY_generate_key failed"
    | some ec => pure (EVP_PKEY_assign EVP_PKEY_new EVP_PKEY_EC (.ec ec)).1
  else luaL_error ("not support " ++ alg ++ "!!!!")

/-- The `rsa` block of the table branch of `openssl_pkey_new` (pkey.c 240-264):
the value of `pkey` after it, `none` for NULL. -/
def pkey_new_rsa (lib : OpenSSL) (params : Option LuaVal) : Except Failure (Option EVP_PKEY) := do
  let t ← lua_getfield params "rsa"
  if lua_istable (some t) then do
    let pkey := EVP_PKEY_new
    let n ← OPENSSL_PKEY_SET_BN lib t "n" none
    let e ← OPENSSL_PKEY_SET_BN lib t "e" none
    let d ← OPENSSL_PKEY_SET_BN lib t "d" none
    let p ← OPENSSL_PKEY_SET_BN lib t "p" none
    let q ← OPENSSL_PKEY_SET_BN lib t "q" none
    let dmp1 ← OPENSSL_PKEY_SET_BN lib t "dmp1" none
    let dmq1 ← OPENSSL_PKEY_SET_BN lib t "dmq1" none
    let iqmp ← OPENSSL_PKEY_SET_BN lib t "iqmp" none
    let rsa : RSA :=
      { n := n, e := e, d := d, p := p, q := q, dmp1 := dmp1, dmq1 := dmq1, iqmp := iqmp }
    if rsa.n.isSome ∧ rsa.d.isSome then
      let r := EVP_PKEY_assign pkey EVP_PKEY_RSA (.rsa rsa)
      if ¬ r.2 then pure none else pure (some r.1)
    else pure (some pkey)
  else pure none

/-- The `dsa` block of the table branch of `openssl_pkey_new` (pkey.c 267-290). -/
def pkey_new_dsa (lib : OpenSSL) (params : Option LuaVal) : Except Failure (Option EVP_PKEY) := do
  let t ← lua_getfield params "dsa"
  if lua_istable (some t) then do
    let pkey := EVP_PKEY_new
    let p ← OPENSSL_PKEY_SET_BN lib t "p" none
    let q ← OPENSSL_PKEY_SET_BN lib t "q" none
    let g ← OPENSSL_PKEY_SET_BN lib t "g" none
    let priv_key ← OPENSSL_PKEY_SET_BN lib t "priv_key" none
    let pub_key ← OPENSSL_PKEY_SET_BN lib t "pub_key" none
    let dsa : DSA := { p := p, q := q, g := g, priv_key := priv_key, pub_key := pub_key }
    if dsa.p.isSome ∧ dsa.q.isSome ∧ dsa.g.isSome then
      let dsa :=
        if dsa.priv_key.isNone ∧ dsa.pub_key.isNone then
          (lib.DSA_generate_key (some dsa)).getD dsa
        else dsa
      let r := EVP_PKEY_assign pkey EVP_PKEY_DSA (.dsa dsa)
      if ¬ r.2 then pure none else pure (some r.1)
    else pure (some pkey)
  else pure none

/-- The `dh` block of the table branch of `openssl_pkey_new` (pkey.c 293-315). -/
def pkey_new_dh (lib : OpenSSL) (params : Option LuaVal) : Except Failure (Option EVP_PKEY) := do
  let t ← lua_getfield params "dh"
  if lua_istable (some t) then do
    let pkey := EVP_PKEY_new
    let p ← OPENSSL_PKEY_SET_BN lib t "p" none
    let g ← OPENSSL_PKEY_SET_BN lib t "g" none
    let priv_key ← OPENSSL_PKEY_SET_BN lib t "priv_key" none
    let pub_key ← OPENSSL_PKEY_SET_BN lib t "pub_key" none
    let dh : DH := { p := p, g := g, priv_key := priv_key, pub_key := pub_key }
    if dh.p.isSome ∧ dh.g.isSome then
      let dh := if dh.pub_key.isNone then (lib.DH_generate_key dh).getD dh else dh
      let r := EVP_PKEY_assign pkey EVP_PKEY_DH (.dh dh)
      if ¬ r.2 then pure none else pure (some r.1)
    else pure (some pkey)
  else pure none

/-- Source `openssl_pkey_new` (pkey.c 171-331). -/
def openssl_pkey_new (lib : OpenSSL) (args : List LuaVal) : LuaResult := do
  let nargs := args.length
  let pkey ←
    if lua_isnoneornil args 1 ∨ lua_isstring (lua_arg args 1) then
      some <$> pkey_new_generate lib args
    else if nargs ≠ 0 ∧ lua_istable (lua_arg args nargs) then do
      let pkey ← pkey_new_rsa lib (lua_arg args 1)
      let pkey ← if pkey.isNone then pkey_new_dsa lib (lua_arg args 1) else pure pkey
      let pkey ← if pkey.isNone then pkey_new_dh lib (lua_arg args 1) else pure pkey
      pure pkey
    else pure none
  match pkey with
  | some k => pure [PUSH_OBJECT k "openssl.evp_pkey"]
  | none => pure []

/-! ## pkey.c: exporting a key -/

/-- The writer `openssl_pkey_export` calls (pkey.c 344-386); `none` is the
`default` case of the raw switch, which calls no writer and sets `ret = 0`. -/
def pkey_export_call (lib : OpenSSL) (args : List LuaVal) : Except Failure (Option PemWrite) := do
  let o ← CHECK_OBJECT (lua_arg args 1) "openssl.evp_pkey"
  let raw_key := if lua_isnoneornil args 2 then false else lua_toboolean (lua_arg args 2)
  let passphrase ← luaL_optlstring (lua_arg args 4)
  let passphrase_len :=
    match passphrase with
    | some s => s.length
    | none => 0
  let is_priv ← openssl_is_private_key o.asPkey
  let cipher := if passphrase.isSome then some lib.EVP_des_ede3_cbc else none
  match o.asPkey with
  | none => .error .abort
  | some key =>
    if ¬ raw_key then
      if is_priv ≠ 0 then pure (some (.PrivateKey key cipher passphrase passphrase_len))
      else pure (some (.PUBKEY key))
    else
      let t := EVP_PKEY_type key.type
      if t = EVP_PKEY_RSA ∨ t = EVP_PKEY_RSA2 then
        if is_priv ≠ 0 then pure (some (.RSAPrivateKey key.rsa cipher passphrase passphrase_len))
        else pure (some (.RSAPublicKey key.rsa))
      else if t = EVP_PKEY_DSA ∨ t = EVP_PKEY_DSA2 ∨ t = EVP_PKEY_DSA3 ∨ t = EVP_PKEY_DSA4 then
        if is_priv ≠ 0 then pure (some (.DSAPrivateKey key.dsa cipher passphrase passphrase_len))
        else pure (some (.DSA_PUBKEY key.dsa))
      else if t = EVP_PKEY_DH then pure (some (.DHparams key.dh))
      else pure none

/-- Source `openssl_pkey_export` (pkey.c 337-401). -/
def openssl_pkey_export (lib : OpenSSL) (args : List LuaVal) : LuaResult := do
  let call ← pkey_export_call lib args
  match call with
  | none => pure []
  | some c =>
    match lib.PEM_write c with
    | some out => pure [lua_pushlstring out out.length]
    | none => pure []

/-! ## pkey.c: raw RSA encryption and decryption -/

def RSA_PKCS1_PADDING : Int := 1
def RSA_SSLV23_PADDING : Int := 2
def RSA_NO_PADDING : Int := 3
def RSA_PKCS1_OAEP_PADDING : Int := 4
def RSA_X931_PADDING : Int := 5
def RSA_PKCS1_PSS_PADDING : Int := 6

/-- Source `get_padding` (pkey.c 512-529); `none` is a NULL name, `version` the
constant `OPENSSL_VERSION_NUMBER` the `pss` case is compiled under. -/
def get_padding (version : Nat) (padding : Option String) : Int :=
  match padding with
  | none => RSA_PKCS1_PADDING
  | some name =>
    if strcasecmp_eq name "pkcs1" then RSA_PKCS1_PADDING
    else if strcasecmp_eq name "sslv23" then RSA_SSLV23_PADDING
    else if strcasecmp_eq name "no" then RSA_NO_PADDING
    else if strcasecmp_eq name "oaep" then RSA_PKCS1_OAEP_PADDING
    else if strcasecmp_eq name "x931" then RSA_X931_PADDING
    else if version > 0x10000000 ∧ strcasecmp_eq name "pss" then RSA_PKCS1_PSS_PADDING
    else 0

/-- Lua API `luaL_optstring` with a default string. -/
def luaL_optstring (v : Option LuaVal) (dflt : String) : Except Failure String :=
  match v with
  | none => pure dflt
  | some .nil => pure dflt
  | w => luaL_checklstring w

/-- Source `openssl_pkey_encrypt` (pkey.c 533-579). -/
def openssl_pkey_encrypt (lib : OpenSSL) (args : List LuaVal) : LuaResult := do
  let o ← CHECK_OBJECT (lua_arg args 1) "openssl.evp_pkey"
  let data ← luaL_checklstring (lua_arg args 2)
  let name ← luaL_optstring (lua_arg args 3) "pkcs1"
  let padding := get_padding lib.OPENSSL_VERSION_NUMBER (some name)
  let priv ← openssl_is_private_key o.asPkey
  match o.asPkey with
  | none => .error .abort
  | some pkey =>
    let clen := lib.EVP_PKEY_size pkey
    if pkey.type = EVP_PKEY_RSA ∨ pkey.type = EVP_PKEY_RSA2 then
      if priv ≠ 0 then
        match lib.RSA_private_encrypt data pkey.rsa padding with
        | some out => if out.length = clen then pure [lua_pushlstring out clen] else pure []
        | none => pure []
      else
        match lib.RSA_public_encrypt data pkey.rsa padding with
        | some out => if out.length = clen then pure [lua_pushlstring out clen] else pure []
        | none => pure []
    else luaL_error "key type not supported in this lua build!"

/-- Source `openssl_pkey_decrypt` (pkey.c 584-630). -/
def openssl_pkey_decrypt (lib : OpenSSL) (args : List LuaVal) : LuaResult := do
  let o ← CHECK_OBJECT (lua_arg args 1) "openssl.evp_pkey"
  let data ← luaL_checklstring (lua_arg args 2)
  let name ← luaL_optstring (lua_arg args 3) "pkcs1"
  let padding := get_padding lib.OPENSSL_VERSION_NUMBER (some name)
  let priv ← openssl_is_private_key o.asPkey
  match o.asPkey with
  | none => .error .abort
  | some pkey =>
    if pkey.type = EVP_PKEY_RSA ∨ pkey.type = EVP_PKEY_RSA2 then
      if priv ≠ 0 then
        match lib.RSA_private_decrypt data pkey.rsa padding with
        | some out => pure [lua_pushlstring out out.length]
        | none => pure []
      else
        match lib.RSA_public_decrypt data pkey.rsa padding with
        | some out => pure [lua_pushlstring out out.length]
        | none => pure []
    else luaL_error "key type not supported in this Lua build!"

/-! ## A small concrete library

An instance of `OpenSSL` on which the functions above can be run: textbook
primitives over short strings, with public-key and symmetric operations that
invert each other. -/

namespace Demo

/-- Shift every byte by `k` modulo 256. -/
def shift (k : Nat) (s : String) : String :=
  String.mk (s.data.map (fun c => Char.ofNat ((c.toNat + k) % 256)))

/-- The shift a content key stands for. -/
def keyShift (key : String) : Nat :=
  match key.data with
  | c :: _ => c.toNat % 8
  | [] => 0

/-- The modulus of an RSA key object. -/
def modulus (k : EVP_PKEY) : Option Nat :=
  match k.rsa with
  | some r => r.n
  | none => none

/-- Whether an RSA key object carries the private exponent. -/
def hasPrivate (k : EVP_PKEY) : Bool :=
  match k.rsa with
  | some r => r.d.isSome
  | none => false

/-- Public-key encryption: the blob names the modulus it was made for. -/
def pkeyEncrypt (k : EVP_PKEY) (key : String) : Option String :=
  match modulus k with
  | some n => some (String.mk (Char.ofNat n :: key.data))
  | none => none

/-- Private-key decryption: succeeds on a blob made for this modulus. -/
def pkeyDecrypt (ekey : String) (k : Option EVP_PKEY) : Option String :=
  match k with
  | none => none
  | some k =>
    match modulus k, ekey.data with
    | some n, c :: rest => if hasPrivate k ∧ c.toNat = n then some (String.mk rest) else none
    | _, _ => none

def hexDigit (c : Char) : Option Nat :=
  if '0' ≤ c ∧ c ≤ '9' then some (c.toNat - '0'.toNat)
  else if 'a' ≤ c ∧ c ≤ 'f' then some (c.toNat - 'a'.toNat + 10)
  else if 'A' ≤ c ∧ c ≤ 'F' then some (c.toNat - 'A'.toNat + 10)
  else none

def hexValue : List Char → Nat → Option Nat
  | [], acc => some acc
  | c :: rest, acc =>
    match hexDigit c with
    | some d => hexValue rest (16 * acc + d)
    | none => none

/-- Raw RSA transform of the demo library: the data filled up to the 8 bytes of
the modulus with the given mark; it fails on data longer than that and on the
padding mode 0. -/
def rsaRaw (mark : Char) (data : String) (padding : Int) : Option String :=
  if padding = 0 ∨ 8 < data.data.length then none
  else some (String.mk (data.data ++ List.replicate (8 - data.data.length) mark))

/-- Inverse of `rsaRaw`: the data without the trailing marks. -/
def rsaUnraw (mark : Char) (data : String) (padding : Int) : Option String :=
  if padding = 0 ∨ data.data.length ≠ 8 then none
  else some (String.mk (data.data.reverse.dropWhile (fun c => c == mark)).reverse)

def pemText (c : PemWrite) : Option String :=
  match c with
  | .PrivateKey _ cipher _ _ =>
    some (if cipher.isSome then "ENCRYPTED PRIVATE KEY" else "PRIVATE KEY")
  | .PUBKEY _ => some "PUBLIC KEY"
  | .RSAPrivateKey _ cipher _ _ =>
    some (if cipher.isSome then "RSA PRIVATE KEY, ENCRYPTED" else "RSA PRIVATE KEY")
  | .RSAPublicKey _ => some "RSA PUBLIC KEY"
  | .DSAPrivateKey _ cipher _ _ =>
    some (if cipher.isSome then "DSA PRIVATE KEY, ENCRYPTED" else "DSA PRIVATE KEY")
  | .DSA_PUBKEY _ => some "PUBLIC KEY"
  | .DHparams _ => some "DH PARAMETERS"

/-- The concrete library. -/
def lib : OpenSSL where
  EVP_get_digestbyname := fun name =>
    if name = "sha1" then some { nid := 64 }
    else if name = "md5" then some { nid := 4 }
    else none
  sha1 := { nid := 64 }
  EVP_get_cipherbyname := fun name =>
    if name = "rc4" then some { nid := 5 }
    else if name = "des-ede3-cbc" then some { nid := 44 }
    else none
  EVP_rc4 := { nid := 5 }
  EVP_des_ede3_cbc := { nid := 44 }
  EVP_PKEY_size := fun _ => 8
  EVP_SignFinal := fun md data k =>
    match k with
    | some k => if hasPrivate k then some (String.mk (Char.ofNat md.nid :: data.data)) else none
    | none => none
  EVP_VerifyFinal := fun md data signature k =>
    match k with
    | some _ => if signature = String.mk (Char.ofNat md.nid :: data.data) then 1 else 0
    | none => -1
  EVP_EncryptInit := fun _ => true
  EVP_CIPHER_CTX_rand_key := fun _ => some "K"
  EVP_PKEY_encrypt_old := pkeyEncrypt
  EVP_SealUpdate := fun _ key data => some (shift (keyShift key) data)
  EVP_SealFinal := fun _ _ _ => ""
  EVP_OpenInit := fun _ ekey k => pkeyDecrypt ekey k
  EVP_OpenUpdate := fun _ key data => some (shift (256 - keyShift key) data)
  EVP_OpenFinal := fun _ _ _ => some ""
  DH_compute_key := fun pub dh =>
    match dh.p, dh.priv_key with
    | some p, some x => (1, String.mk [Char.ofNat (pub ^ x % p)])
    | _, _ => (-1, "")
  BN_bin2bn := fun s => s.data.foldl (fun acc c => 256 * acc + c.toNat) 0
  PEM_write := pemText
  BN_hex2bn := fun s => if s.data = [] then none else hexValue s.data 0
  PEM_read_PUBKEY := fun _ => none
  d2i_PUBKEY := fun _ => none
  PEM_read_PrivateKey := fun _ _ => none
  d2i_PrivateKey := fun _ => none
  RSA_generate_key := fun bits e =>
    if bits < 16 then none
    else some { n := some 3233, e := some e.toNat, d := some 2753, p := some 61, q := some 53,
                dmp1 := some 53, dmq1 := some 49, iqmp := some 38 }
  DSA_generate_parameters := fun bits _ =>
    if bits < 16 then none
    else some { p := some 23, q := some 11, g := some 4, priv_key := none, pub_key := none }
  DSA_generate_key := fun dsa =>
    match dsa with
    | some d => some { p := d.p, q := d.q, g := d.g, priv_key := some 7, pub_key := some 8 }
    | none => none
  DH_generate_parameters_ex := fun bits generator =>
    if bits < 16 then none
    else some { p := some 23, g := some generator.toNat, priv_key := none, pub_key := none }
  DH_generate_key := fun dh =>
    some { p := dh.p, g := dh.g, priv_key := some 6, pub_key := some 8 }
  EC_KEY_generate_key := fun curve => some { curve := curve, generated := true }
  OPENSSL_VERSION_NUMBER := 0x1000105f
  RSA_private_encrypt := fun data _ padding => rsaRaw 'S' data padding
  RSA_public_encrypt := fun data _ padding => rsaRaw 'P' data padding
  RSA_private_decrypt := fun data _ padding => rsaUnraw 'P' data padding
  RSA_public_decrypt := fun data _ padding => rsaUnraw 'S' data padding

/-- Public half of the RSA key with modulus `n`. -/
def rsaPublic (n : Nat) : EVP_PKEY :=
  { type := EVP_PKEY_RSA,
    pkey := .rsa { n := some n, e := some 17, d := none, p := none, q := none,
                   dmp1 := none, dmq1 := none, iqmp := none } }

/-- Private key with modulus `n` and prime factors `p` and `q`. -/
def rsaPrivate (n d p q : Nat) : EVP_PKEY :=
  { type := EVP_PKEY_RSA,
    pkey := .rsa { n := some n, e := some 17, d := some d, p := some p, q := some q,
                   dmp1 := none, dmq1 := none, iqmp := none } }

/-- A key object as a Lua value. -/
def keyVal (k : EVP_PKEY) : LuaVal := .userdata "openssl.evp_pkey" (.pkey k)

end Demo


/-! ## Reference definitions taken from the specification -/

/-- The three answers of the private-key predicate. -/
inductive Privateness
  | isPrivate
  | isPublic
  | indeterminate
  deriving DecidableEq, Repr

/-- The integer `openssl_is_private_key` uses for each answer. -/
def Privateness.code : Privateness → Int
  | .isPrivate => 1
  | .isPublic => 0
  | .indeterminate => -1

/-- Reference definition of the private-key predicate, worded as the
specification words it: RSA is private iff `p` and `q` are present, DSA iff `p`,
`q` and `priv_key` are, DH iff `p` and `priv_key` are; every other algorithm is
indeterminate. -/
def private_key_spec (k : EVP_PKEY) : Privateness :=
  if EVP_PKEY_type k.type = EVP_PKEY_RSA then
    match k.rsa with
    | some r => if r.p.isSome ∧ r.q.isSome then .isPrivate else .isPublic
    | none => .isPublic
  else if EVP_PKEY_type k.type = EVP_PKEY_DSA then
    match k.dsa with
    | some d => if d.p.isSome ∧ d.q.isSome ∧ d.priv_key.isSome then .isPrivate else .isPublic
    | none => .isPublic
  else if EVP_PKEY_type k.type = EVP_PKEY_DH then
    match k.dh with
    | some d => if d.p.isSome ∧ d.priv_key.isSome then .isPrivate else .isPublic
    | none => .isPublic
  else .indeterminate

/-- What `pkey.is_private` is to give for each answer of the predicate. -/
def is_private_surface : Privateness → LuaResult
  | .isPrivate => .ok [.boolean true]
  | .isPublic => .ok [.boolean false]
  | .indeterminate => luaL_error "openssl.evp_pkey is not support"

/-- The condition the `assert`s of `openssl_is_private_key` state: a key object
of type RSA, DSA or DH carries the material of that type. -/
def EVP_PKEY.hasMaterial (k : EVP_PKEY) : Bool :=
  if EVP_PKEY_type k.type = EVP_PKEY_RSA then k.rsa.isSome
  else if EVP_PKEY_type k.type = EVP_PKEY_DSA then k.dsa.isSome
  else if EVP_PKEY_type k.type = EVP_PKEY_DH then k.dh.isSome
  else true

/-! ## Theorems -/

/-- C1 (code defect): sealing "hi" for the two recipients with moduli 33 and 35
returns a key list whose second blob is the content key encrypted under the
first recipient (modulus 33), not under the second, and whose first blob comes
from a slot the key loop never stored: the loop stores recipient `i` at index
`i` (here indices 1 and 2 of arrays of 2 slots), the sealing primitive reads
indices `0 .. nkeys-1`. -/
theorem seal_key_list_shifted_by_one :
    openssl_seal Demo.lib
        [.str "hi", .table [Demo.keyVal (Demo.rsaPublic 33), Demo.keyVal (Demo.rsaPublic 35)] []]
      = .ok [.str "kl", .table [.indet, .str "!K"] []]
    ∧ Demo.lib.EVP_CIPHER_CTX_rand_key Demo.lib.EVP_rc4 = some "K"
    ∧ Demo.lib.EVP_PKEY_encrypt_old (Demo.rsaPublic 33) "K" = some "!K"
    ∧ Demo.lib.EVP_PKEY_encrypt_old (Demo.rsaPublic 35) "K" = some "#K"
    ∧ "!K" ≠ "#K"
    ∧ (seal_collect Demo.lib
          [Demo.keyVal (Demo.rsaPublic 33), Demo.keyVal (Demo.rsaPublic 35)] 2).map
        (fun a => (a.pkeys.size, a.pkeys.written, a.pkeys.get 0, a.pkeys.get 1, a.eks.get 0))
      = .ok (2, [1, 2], none, some (Demo.rsaPublic 33), none) := by
  refine ⟨rfl, rfl, rfl, rfl, by decide, rfl⟩

/-- C2 (code defect): with primitives that invert each other, the second
recipient cannot open what `seal` returned for them.  `seal` gives the ciphertext
"kl" and, at index 2, the blob "!K" made for the first recipient; `open` with the
second private key fails to recover the content key and returns an indeterminate
string, while the same ciphertext with the blob made for the second recipient
opens to the data.  With a single recipient the only blob returned comes from the
slot the key loop never stored. -/
theorem seal_then_open_second_recipient_fails :
    openssl_seal Demo.lib
        [.str "hi", .table [Demo.keyVal (Demo.rsaPublic 33), Demo.keyVal (Demo.rsaPublic 35)] []]
      = .ok [.str "kl", .table [.indet, .str "!K"] []]
    ∧ openssl_open Demo.lib [.str "kl", .str "!K", Demo.keyVal (Demo.rsaPrivate 35 5 5 7)]
      = .ok [.indet]
    ∧ openssl_open Demo.lib [.str "kl", .str "#K", Demo.keyVal (Demo.rsaPrivate 35 5 5 7)]
      = .ok [.str "hi"]
    ∧ openssl_open Demo.lib [.str "kl", .str "!K", Demo.keyVal (Demo.rsaPrivate 33 3 3 11)]
      = .ok [.str "hi"]
    ∧ openssl_seal Demo.lib [.str "hi", .table [Demo.keyVal (Demo.rsaPublic 33)] []]
      = .ok [.str "kl", .table [.indet] []] := by
  refine ⟨rfl, rfl, rfl, rfl, rfl⟩

/-- C3 (code defect): `open` returns one value also when a stage fails.  With a
blob the private key cannot decrypt (key recovery fails) and with a library whose
`EVP_OpenUpdate` or `EVP_OpenFinal` fails (bulk decryption fails) the call
returns one string, read from the buffer it has just freed. -/
theorem open_returns_a_value_after_failure :
    Demo.lib.EVP_OpenInit Demo.lib.EVP_rc4 "zz" (some (Demo.rsaPrivate 33 3 3 11)) = none
    ∧ openssl_open Demo.lib [.str "kl", .str "zz", Demo.keyVal (Demo.rsaPrivate 33 3 3 11)]
      = .ok [.indet]
    ∧ openssl_open { Demo.lib with EVP_OpenUpdate := fun _ _ _ => none }
        [.str "kl", .str "!K", Demo.keyVal (Demo.rsaPrivate 33 3 3 11)]
      = .ok [.indet]
    ∧ openssl_open { Demo.lib with EVP_OpenFinal := fun _ _ _ => none }
        [.str "kl", .str "!K", Demo.keyVal (Demo.rsaPrivate 33 3 3 11)]
      = .ok [.indet] := by
  refine ⟨rfl, rfl, rfl, rfl⟩

/-- C4: for every key object that carries the material of its type, the
private-key predicate equals the reference definition (RSA: `p` and `q`; DSA:
`p`, `q`, `priv_key`; DH: `p`, `priv_key`; any other type indeterminate), and
`pkey.is_private` gives true, false, or a raised error accordingly. -/
theorem is_private_key_meets_spec (k : EVP_PKEY) (h : k.hasMaterial = true) :
    openssl_is_private_key (some k) = .ok (private_key_spec k).code
    ∧ openssl_pkey_is_private [.userdata "openssl.evp_pkey" (.pkey k)]
      = is_private_surface (private_key_spec k) := by
  obtain ⟨t, ptr⟩ := k
  by_cases hr : t = 6 ∨ t = 19
  · have ht : EVP_PKEY_type t = 6 := by
      simp [EVP_PKEY_type, EVP_PKEY_RSA, EVP_PKEY_RSA2, hr]
    cases ptr with
    | rsa r =>
      obtain ⟨n, e, d, p, q, a, b, c⟩ := r
      cases p <;> cases q <;>
        simp [openssl_is_private_key, openssl_pkey_is_private, private_key_spec, EVP_PKEY.rsa,
          ht, hr, EVP_PKEY_RSA, EVP_PKEY_RSA2, Privateness.code, is_private_surface,
          CHECK_OBJECT, lua_arg, Obj.asPkey, bind, Except.bind, pure, Except.pure]
    | _ =>
      simp [EVP_PKEY.hasMaterial, ht, EVP_PKEY_RSA, EVP_PKEY.rsa] at h
  · by_cases hd : t = 116 ∨ t = 67 ∨ t = 66 ∨ t = 113 ∨ t = 70
    · have hr6 : ¬ (t = 6 ∨ t = 19) := hr
      have ht : EVP_PKEY_type t = 116 := by
        simp [EVP_PKEY_type, EVP_PKEY_RSA, EVP_PKEY_RSA2, EVP_PKEY_DSA, EVP_PKEY_DSA1,
          EVP_PKEY_DSA2, EVP_PKEY_DSA3, EVP_PKEY_DSA4, hr6, hd]
      cases ptr with
      | dsa r =>
        obtain ⟨p, q, g, x, y⟩ := r
        cases p <;> cases q <;> cases x <;>
          simp [openssl_is_private_key, openssl_pkey_is_private, private_key_spec, EVP_PKEY.dsa,
            ht, hr6, hd, EVP_PKEY_RSA, EVP_PKEY_RSA2, EVP_PKEY_DSA, EVP_PKEY_DSA1,
            EVP_PKEY_DSA2, EVP_PKEY_DSA3, EVP_PKEY_DSA4, Privateness.code, is_private_surface,
            CHECK_OBJECT, lua_arg, Obj.asPkey, bind, Except.bind, pure, Except.pure]
      | _ =>
        simp [EVP_PKEY.hasMaterial, ht, EVP_PKEY_RSA, EVP_PKEY_DSA, EVP_PKEY.dsa] at h
    · by_cases hh : t = 28
      · subst hh
        cases ptr with
        | dh r =>
          obtain ⟨p, g, x, y⟩ := r
          cases p <;> cases x <;>
            simp [openssl_is_private_key, openssl_pkey_is_private, private_key_spec, EVP_PKEY.dh,
              EVP_PKEY_type, EVP_PKEY_RSA, EVP_PKEY_RSA2, EVP_PKEY_DSA, EVP_PKEY_DSA1,
              EVP_PKEY_DSA2, EVP_PKEY_DSA3, EVP_PKEY_DSA4, EVP_PKEY_DH, Privateness.code,
              is_private_surface, CHECK_OBJECT, lua_arg, Obj.asPkey, bind, Except.bind, pure,
              Except.pure]
        | _ =>
          simp [EVP_PKEY.hasMaterial, EVP_PKEY_type, EVP_PKEY_RSA, EVP_PKEY_RSA2, EVP_PKEY_DSA,
            EVP_PKEY_DSA1, EVP_PKEY_DSA2, EVP_PKEY_DSA3, EVP_PKEY_DSA4, EVP_PKEY_DH,
            EVP_PKEY.dh] at h
      · have ht : EVP_PKEY_type t ≠ 6 ∧ EVP_PKEY_type t ≠ 116 ∧ EVP_PKEY_type t ≠ 28 := by
          simp only [EVP_PKEY_type, EVP_PKEY_RSA, EVP_PKEY_RSA2, EVP_PKEY_DSA, EVP_PKEY_DSA1,
            EVP_PKEY_DSA2, EVP_PKEY_DSA3, EVP_PKEY_DSA4, EVP_PKEY_DH, EVP_PKEY_EC]
          rw [if_neg hr, if_neg hd, if_neg hh]
          split_ifs <;> decide
        simp [openssl_is_private_key, openssl_pkey_is_private, private_key_spec,
          ht, hr, hd, hh, EVP_PKEY_RSA, EVP_PKEY_RSA2, EVP_PKEY_DSA, EVP_PKEY_DSA1,
          EVP_PKEY_DSA2, EVP_PKEY_DSA3, EVP_PKEY_DSA4, EVP_PKEY_DH, Privateness.code,
          is_private_surface, CHECK_OBJECT, lua_arg, Obj.asPkey, bind, Except.bind, pure,
          Except.pure, luaL_error]

/-- C4, at a concrete key: the private RSA key with modulus 33. -/
theorem is_private_key_meets_spec_witness :
    (Demo.rsaPrivate 33 3 3 11).hasMaterial = true
    ∧ (openssl_is_private_key (some (Demo.rsaPrivate 33 3 3 11))
        = .ok (private_key_spec (Demo.rsaPrivate 33 3 3 11)).code
      ∧ openssl_pkey_is_private
          [.userdata "openssl.evp_pkey" (.pkey (Demo.rsaPrivate 33 3 3 11))]
        = is_private_surface (private_key_spec (Demo.rsaPrivate 33 3 3 11))) :=
  ⟨rfl, is_private_key_meets_spec (Demo.rsaPrivate 33 3 3 11) rfl⟩

/-- C5 (counterexample): on the private RSA key with modulus 33, `pkey.read` with
`want_public = true` raises an error instead of returning the key; and on the
public key with modulus 33, `pkey.read` with `want_public = false` raises nothing
and returns the key. -/
theorem read_key_object_counterexample :
    openssl_is_private_key (some (Demo.rsaPrivate 33 3 3 11)) = .ok 1
    ∧ openssl_pkey_read Demo.lib [PUSH_OBJECT (Demo.rsaPrivate 33 3 3 11) "openssl.evp_pkey",
        .boolean true] = .error (.error "evp_pkey object is not a public key")
    ∧ openssl_is_private_key (some (Demo.rsaPublic 33)) = .ok 0
    ∧ openssl_pkey_read Demo.lib [PUSH_OBJECT (Demo.rsaPublic 33) "openssl.evp_pkey",
        .boolean false] = .ok [PUSH_OBJECT (Demo.rsaPublic 33) "openssl.evp_pkey"] := by
  refine ⟨rfl, rfl, rfl, rfl⟩

/-- C5 (amended): for `pkey.read` applied to an existing key object with
`want_public = true`: if the private-key predicate answers anything but 0 (the
key is private, or its type is indeterminate) the call raises "evp_pkey object is
not a public key"; if it answers 0 (public-only key) the call returns that same
key object. -/
theorem read_key_object_public_request (lib : OpenSSL) (k : EVP_PKEY) :
    (∀ v : Int, openssl_is_private_key (some k) = .ok v → v ≠ 0 →
        openssl_pkey_read lib [PUSH_OBJECT k "openssl.evp_pkey", .boolean true]
          = .error (.error "evp_pkey object is not a public key"))
    ∧ (openssl_is_private_key (some k) = .ok 0 →
        openssl_pkey_read lib [PUSH_OBJECT k "openssl.evp_pkey", .boolean true]
          = .ok [PUSH_OBJECT k "openssl.evp_pkey"]) := by
  constructor
  · intro v hv hne
    simp [openssl_pkey_read, PUSH_OBJECT, lua_arg, auxiliar_getclassudata, CHECK_OBJECT,
      Obj.asPkey, lua_toboolean, hv, hne, luaL_error, bind, Except.bind, pure, Except.pure]
  · intro hv
    simp [openssl_pkey_read, PUSH_OBJECT, lua_arg, auxiliar_getclassudata, CHECK_OBJECT,
      Obj.asPkey, lua_toboolean, hv, luaL_error, bind, Except.bind, pure, Except.pure]

/-- C5 (amended), at concrete keys: the private and the public RSA key with
modulus 33. -/
theorem read_key_object_public_request_witness :
    openssl_pkey_read Demo.lib
        [PUSH_OBJECT (Demo.rsaPrivate 33 3 3 11) "openssl.evp_pkey", .boolean true]
      = .error (.error "evp_pkey object is not a public key")
    ∧ openssl_pkey_read Demo.lib
        [PUSH_OBJECT (Demo.rsaPublic 33) "openssl.evp_pkey", .boolean true]
      = .ok [PUSH_OBJECT (Demo.rsaPublic 33) "openssl.evp_pkey"] :=
  ⟨(read_key_object_public_request Demo.lib (Demo.rsaPrivate 33 3 3 11)).1 1 rfl (by decide),
   (read_key_object_public_request Demo.lib (Demo.rsaPublic 33)).2 rfl⟩

/-- C6 (code defect): `pkey.new` with an `rsa` table that gives `n` but no `d`, and
with an empty `rsa` table next to a complete `dsa` table, returns a key object:
the empty `EVP_PKEY` (no type, no material) made before the fields were read.
With both `n` and `d` the RSA key is returned. -/
theorem pkey_new_rsa_without_d_returns_empty_key :
    openssl_pkey_new Demo.lib [.table [] [("rsa", .table [] [("n", .str "C3")])]]
      = .ok [PUSH_OBJECT { type := EVP_PKEY_NONE, pkey := .null } "openssl.evp_pkey"]
    ∧ openssl_pkey_new Demo.lib
        [.table [] [("rsa", .table [] []),
                    ("dsa", .table [] [("p", .str "17"), ("q", .str "0B"), ("g", .str "04")])]]
      = .ok [PUSH_OBJECT { type := EVP_PKEY_NONE, pkey := .null } "openssl.evp_pkey"]
    ∧ openssl_pkey_new Demo.lib
        [.table [] [("rsa", .table [] [("n", .str "C3"), ("d", .str "11")])]]
      = .ok [PUSH_OBJECT
          { type := EVP_PKEY_RSA,
            pkey := .rsa { n := some 195, e := none, d := some 17, p := none, q := none,
                           dmp1 := none, dmq1 := none, iqmp := none } } "openssl.evp_pkey"] := by
  refine ⟨rfl, rfl, rfl⟩

/-- C7 (code defect): `pkey.export(key, false, "secret")` on a private key calls
the private-key writer with no cipher, no passphrase and length 0, and the output
is unencrypted: the passphrase is read from argument 4.  Given as a fourth
argument it selects triple-DES-CBC. -/
theorem export_ignores_third_argument_passphrase :
    pkey_export_call Demo.lib
        [PUSH_OBJECT (Demo.rsaPrivate 33 3 3 11) "openssl.evp_pkey", .boolean false,
         .str "secret"]
      = .ok (some (.PrivateKey (Demo.rsaPrivate 33 3 3 11) none none 0))
    ∧ openssl_pkey_export Demo.lib
        [PUSH_OBJECT (Demo.rsaPrivate 33 3 3 11) "openssl.evp_pkey", .boolean false,
         .str "secret"]
      = .ok [.str "PRIVATE KEY"]
    ∧ pkey_export_call Demo.lib
        [PUSH_OBJECT (Demo.rsaPrivate 33 3 3 11) "openssl.evp_pkey", .boolean true,
         .str "secret"]
      = .ok (some (.RSAPrivateKey (Demo.rsaPrivate 33 3 3 11).rsa none none 0))
    ∧ pkey_export_call Demo.lib
        [PUSH_OBJECT (Demo.rsaPrivate 33 3 3 11) "openssl.evp_pkey", .boolean false, .nil,
         .str "secret"]
      = .ok (some (.PrivateKey (Demo.rsaPrivate 33 3 3 11) (some Demo.lib.EVP_des_ede3_cbc)
          (some "secret") 6)) := by
  refine ⟨rfl, rfl, rfl, rfl⟩

/-- C8 (counterexample): signing and verifying with the digest name "nosuch",
which the registry does not resolve, raise no error: `sign` returns the SHA-1
signature and `verify` accepts it. -/
theorem sign_verify_unknown_digest_counterexample :
    Demo.lib.EVP_get_digestbyname "nosuch" = none
    ∧ openssl_sign Demo.lib
        [.str "hello", PUSH_OBJECT (Demo.rsaPrivate 33 3 3 11) "openssl.evp_pkey", .str "nosuch"]
      = .ok [.str "@hello"]
    ∧ openssl_sign Demo.lib
        [.str "hello", PUSH_OBJECT (Demo.rsaPrivate 33 3 3 11) "openssl.evp_pkey"]
      = .ok [.str "@hello"]
    ∧ openssl_verify Demo.lib
        [.str "hello", .str "@hello", PUSH_OBJECT (Demo.rsaPublic 33) "openssl.evp_pkey",
         .str "nosuch"]
      = .ok [.number 1] := by
  refine ⟨rfl, rfl, rfl, rfl⟩

/-- C8 (amended): when the digest argument is a string the registry cannot
resolve, `sign` and `verify` raise no error on its account and do exactly what
they do when the digest argument is absent, that is, use the SHA-1 default. -/
theorem sign_verify_unknown_digest_defaults (lib : OpenSSL) (name : String)
    (h : lib.EVP_get_digestbyname name = none) (a b c : LuaVal) :
    openssl_sign lib [a, b, .str name] = openssl_sign lib [a, b]
    ∧ openssl_verify lib [a, b, c, .str name] = openssl_verify lib [a, b, c] := by
  constructor
  · simp [openssl_sign, digest_arg, lua_arg, lua_isstring, luaL_checklstring, h, bind,
      Except.bind, pure, Except.pure]
  · simp [openssl_verify, digest_arg, lua_arg, lua_isstring, luaL_checklstring, h, bind,
      Except.bind, pure, Except.pure]

/-- C8 (amended), at the name "nosuch" in the concrete library. -/
theorem sign_verify_unknown_digest_defaults_witness :
    Demo.lib.EVP_get_digestbyname "nosuch" = none
    ∧ (openssl_sign Demo.lib
          [.str "hello", PUSH_OBJECT (Demo.rsaPrivate 33 3 3 11) "openssl.evp_pkey",
           .str "nosuch"]
        = openssl_sign Demo.lib
          [.str "hello", PUSH_OBJECT (Demo.rsaPrivate 33 3 3 11) "openssl.evp_pkey"]
      ∧ openssl_verify Demo.lib
          [.str "hello", .str "@hello",
           PUSH_OBJECT (Demo.rsaPrivate 33 3 3 11) "openssl.evp_pkey", .str "nosuch"]
        = openssl_verify Demo.lib
          [.str "hello", .str "@hello",
           PUSH_OBJECT (Demo.rsaPrivate 33 3 3 11) "openssl.evp_pkey"]) :=
  ⟨rfl,
   (sign_verify_unknown_digest_defaults Demo.lib "nosuch" rfl (.str "hello")
      (PUSH_OBJECT (Demo.rsaPrivate 33 3 3 11) "openssl.evp_pkey") .nil).1,
   (sign_verify_unknown_digest_defaults Demo.lib "nosuch" rfl (.str "hello") (.str "@hello")
      (PUSH_OBJECT (Demo.rsaPrivate 33 3 3 11) "openssl.evp_pkey")).2⟩

/-- C10 (counterexample): for the DH key with `p = 23` and no `priv_key`, the DH
primitive reports the length -1 and `dh_compute_key` raises no error: it returns
no values. -/
theorem dh_compute_key_counterexample :
    Demo.lib.DH_compute_key (Demo.lib.BN_bin2bn "\x05")
        { p := some 23, g := some 5, priv_key := none, pub_key := some 8 } = (-1, "")
    ∧ openssl_dh_compute_key Demo.lib
        [.str "\x05",
         PUSH_OBJECT { type := EVP_PKEY_DH,
                       pkey := .dh { p := some 23, g := some 5, priv_key := none,
                                     pub_key := some 8 } } "openssl.evp_pkey"]
      = .ok [] := by
  refine ⟨rfl, rfl⟩

/-- C10 (amended): `dh_compute_key` raises an error for every key whose type is
not DH and for every key whose material pointer is NULL.  Every key of type DH
with material is handed to the DH primitive, together with the peer value read
by `BN_bin2bn`, whether or not its `priv_key` is present: when the primitive
reports a length `len >= 0` the call returns one value, the first `len` bytes the
primitive wrote, and when it reports a negative length the call returns no
values and raises no error. -/
theorem dh_compute_key_checks (lib : OpenSSL) (pub : String) (k : EVP_PKEY) :
    (EVP_PKEY_type k.type ≠ EVP_PKEY_DH ∨ k.pkey = .null →
        openssl_dh_compute_key lib [.str pub, PUSH_OBJECT k "openssl.evp_pkey"]
          = .error (.error "paramater 2 must dh key"))
    ∧ (∀ dh : DH, EVP_PKEY_type k.type = EVP_PKEY_DH → k.dh = some dh →
        openssl_dh_compute_key lib [.str pub, PUSH_OBJECT k "openssl.evp_pkey"]
          = if (lib.DH_compute_key (lib.BN_bin2bn pub) dh).1 ≥ 0 then
              .ok [lua_pushlstring (lib.DH_compute_key (lib.BN_bin2bn pub) dh).2
                    (lib.DH_compute_key (lib.BN_bin2bn pub) dh).1.toNat]
            else .ok [])
    ∧ (∀ dh : DH, EVP_PKEY_type k.type = EVP_PKEY_DH → k.dh = some dh →
        (lib.DH_compute_key (lib.BN_bin2bn pub) dh).1 < 0 →
        openssl_dh_compute_key lib [.str pub, PUSH_OBJECT k "openssl.evp_pkey"] = .ok []) := by
  have hEq : ∀ dh : DH, EVP_PKEY_type k.type = EVP_PKEY_DH → k.dh = some dh →
      openssl_dh_compute_key lib [.str pub, PUSH_OBJECT k "openssl.evp_pkey"]
        = if (lib.DH_compute_key (lib.BN_bin2bn pub) dh).1 ≥ 0 then
            .ok [lua_pushlstring (lib.DH_compute_key (lib.BN_bin2bn pub) dh).2
                  (lib.DH_compute_key (lib.BN_bin2bn pub) dh).1.toNat]
          else .ok [] := by
    intro dh ht hd
    simp [openssl_dh_compute_key, PUSH_OBJECT, lua_arg, luaL_checklstring, CHECK_OBJECT,
      Obj.asPkey, ht, hd, bind, Except.bind, pure, Except.pure]
  refine ⟨?_, hEq, ?_⟩
  · intro hk
    by_cases ht : EVP_PKEY_type k.type = EVP_PKEY_DH
    · have hd : k.dh = none := by
        rcases hk with hk | hk
        · exact absurd ht hk
        · simp [EVP_PKEY.dh, hk]
      simp [openssl_dh_compute_key, PUSH_OBJECT, lua_arg, luaL_checklstring, CHECK_OBJECT,
        Obj.asPkey, ht, hd, luaL_error, bind, Except.bind, pure, Except.pure]
    · simp [openssl_dh_compute_key, PUSH_OBJECT, lua_arg, luaL_checklstring, CHECK_OBJECT,
        Obj.asPkey, ht, luaL_error, bind, Except.bind, pure, Except.pure]
  · intro dh ht hd hneg
    have hge : ¬ ((lib.DH_compute_key (lib.BN_bin2bn pub) dh).1 ≥ 0) := by omega
    rw [hEq dh ht hd, if_neg hge]

/-- C10 (amended), at concrete keys in the demo library: the public RSA key with
modulus 33 is refused; the DH key with `p = 23` and `priv_key = 6` gives the
shared secret the primitive computed (one byte, 5^6 mod 23 = 8); the same key
without `priv_key` reaches the primitive, which reports -1, and nothing is
returned. -/
theorem dh_compute_key_checks_witness :
    openssl_dh_compute_key Demo.lib
        [.str "\x05", PUSH_OBJECT (Demo.rsaPublic 33) "openssl.evp_pkey"]
      = .error (.error "paramater 2 must dh key")
    ∧ openssl_dh_compute_key Demo.lib
        [.str "\x05",
         PUSH_OBJECT { type := EVP_PKEY_DH,
                       pkey := .dh { p := some 23, g := some 5, priv_key := some 6,
                                     pub_key := some 8 } } "openssl.evp_pkey"]
      = .ok [.str "\x08"]
    ∧ openssl_dh_compute_key Demo.lib
        [.str "\x05",
         PUSH_OBJECT { type := EVP_PKEY_DH,
                       pkey := .dh { p := some 23, g := some 5, priv_key := none,
                                     pub_key := some 8 } } "openssl.evp_pkey"]
      = .ok [] :=
  ⟨(dh_compute_key_checks Demo.lib "\x05" (Demo.rsaPublic 33)).1 (Or.inl (by decide)),
   (dh_compute_key_checks Demo.lib "\x05"
      { type := EVP_PKEY_DH,
        pkey := .dh { p := some 23, g := some 5, priv_key := some 6, pub_key := some 8 } }).2.1
      { p := some 23, g := some 5, priv_key := some 6, pub_key := some 8 } rfl rfl,
   (dh_compute_key_checks Demo.lib "\x05"
      { type := EVP_PKEY_DH,
        pkey := .dh { p := some 23, g := some 5, priv_key := none, pub_key := some 8 } }).2.2
      { p := some 23, g := some 5, priv_key := none, pub_key := some 8 } rfl rfl (by decide)⟩

/-- Pushing the first `n` bytes of a buffer of exactly `n` bytes gives the buffer. -/
theorem lua_pushlstring_full (out : String) (n : Nat) (h : out.length = n) :
    lua_pushlstring out n = .str out := by
  unfold lua_pushlstring
  have hn : n = out.data.length := by rw [← h]; rfl
  rw [hn, List.take_length]

/-- C11: for every RSA key object, data and padding name, `pkey.encrypt` calls
the private-encrypt primitive when the key is private (`p` and `q` present) and
the public-encrypt primitive otherwise; it returns one value, the bytes the
primitive wrote, exactly when the primitive reports a length equal to the key
size `EVP_PKEY_size`, and that string has that length; in every other case it
returns no value. -/
theorem pkey_encrypt_selects_primitive (lib : OpenSSL) (k : EVP_PKEY) (r : RSA)
    (data : String) (pad : Option String)
    (ht : k.type = EVP_PKEY_RSA ∨ k.type = EVP_PKEY_RSA2) (hr : k.rsa = some r) :
    openssl_pkey_encrypt lib
        ([PUSH_OBJECT k "openssl.evp_pkey", .str data] ++ (pad.map LuaVal.str).toList)
      = match (if private_key_spec k = .isPrivate
               then lib.RSA_private_encrypt data (some r)
                 (get_padding lib.OPENSSL_VERSION_NUMBER (some (pad.getD "pkcs1")))
               else lib.RSA_public_encrypt data (some r)
                 (get_padding lib.OPENSSL_VERSION_NUMBER (some (pad.getD "pkcs1")))) with
        | some out => if out.length = lib.EVP_PKEY_size k then .ok [.str out] else .ok []
        | none => .ok [] := by
  obtain ⟨t, ptr⟩ := k
  have hT : EVP_PKEY_type t = EVP_PKEY_RSA := by
    simp only [EVP_PKEY_type]
    rw [if_pos ht]
  cases ptr with
  | rsa r0 =>
    have hr0 : r0 = r := by simpa [EVP_PKEY.rsa] using hr
    subst hr0
    obtain ⟨n, e, d, p, q, a, b, c⟩ := r0
    cases p <;> cases q <;> cases pad <;>
      simp [openssl_pkey_encrypt, openssl_is_private_key, private_key_spec, EVP_PKEY.rsa, hT, ht,
        PUSH_OBJECT, CHECK_OBJECT, lua_arg, Obj.asPkey, luaL_checklstring, luaL_optstring,
        bind, Except.bind, pure, Except.pure]
    all_goals
      split
      · split_ifs with hlen
        · rw [lua_pushlstring_full _ _ hlen]
        · rfl
      · rfl
  | _ => simp [EVP_PKEY.rsa] at hr

/-- C11, at concrete calls in the demo library: the private key with modulus 33
goes through the private-encrypt primitive, the public key (padding "oaep")
through the public-encrypt primitive, each giving the 8 bytes of the key size. -/
theorem pkey_encrypt_selects_primitive_witness :
    openssl_pkey_encrypt Demo.lib
        [PUSH_OBJECT (Demo.rsaPrivate 33 3 3 11) "openssl.evp_pkey", .str "hello"]
      = .ok [.str "helloSSS"]
    ∧ openssl_pkey_encrypt Demo.lib
        [PUSH_OBJECT (Demo.rsaPublic 33) "openssl.evp_pkey", .str "hello", .str "oaep"]
      = .ok [.str "helloPPP"]
    ∧ openssl_pkey_encrypt Demo.lib
        [PUSH_OBJECT (Demo.rsaPublic 33) "openssl.evp_pkey", .str "much too long"]
      = .ok [] :=
  ⟨pkey_encrypt_selects_primitive Demo.lib (Demo.rsaPrivate 33 3 3 11) _ "hello" none
      (Or.inl rfl) rfl,
   pkey_encrypt_selects_primitive Demo.lib (Demo.rsaPublic 33) _ "hello" (some "oaep")
      (Or.inl rfl) rfl,
   pkey_encrypt_selects_primitive Demo.lib (Demo.rsaPublic 33) _ "much too long" none
      (Or.inl rfl) rfl⟩

/-- A name that compares equal to `a` without regard to case compares to any `b`
as `a` does. -/
theorem strcasecmp_eq_congr (name a b : String) (h : strcasecmp_eq name a = true) :
    strcasecmp_eq name b = strcasecmp_eq a b := by
  unfold strcasecmp_eq at *
  rw [eq_of_beq h]

/-- C12 (counterexample): compiled against OpenSSL 0.9.8 (version number
0x0090810f) the resolver maps "pss" to 0, the value of an unknown name, which is
not a padding mode. -/
theorem get_padding_pss_counterexample :
    get_padding 0x0090810f (some "pss") = 0
    ∧ get_padding 0x0090810f (some "no such padding") = 0
    ∧ get_padding 0x0090810f (some "x931") = RSA_X931_PADDING := by
  refine ⟨rfl, rfl, rfl⟩

/-- C12 (amended): the padding-name resolver maps an absent name and "pkcs1" to
the PKCS#1 mode and each of "sslv23", "no", "oaep", "x931" to its own mode,
comparing names without regard to case; when the module is compiled against an
OpenSSL newer than 1.0.0 (`OPENSSL_VERSION_NUMBER > 0x10000000`) it also maps
"pss" to its own mode, and in every older build it maps "pss" to 0, the value of
an unknown name.  The six modes are pairwise distinct and non-zero. -/
theorem get_padding_names (version : Nat) :
    get_padding version none = RSA_PKCS1_PADDING
    ∧ (∀ name, strcasecmp_eq name "pkcs1" = true →
        get_padding version (some name) = RSA_PKCS1_PADDING)
    ∧ (∀ name, strcasecmp_eq name "sslv23" = true →
        get_padding version (some name) = RSA_SSLV23_PADDING)
    ∧ (∀ name, strcasecmp_eq name "no" = true →
        get_padding version (some name) = RSA_NO_PADDING)
    ∧ (∀ name, strcasecmp_eq name "oaep" = true →
        get_padding version (some name) = RSA_PKCS1_OAEP_PADDING)
    ∧ (∀ name, strcasecmp_eq name "x931" = true →
        get_padding version (some name) = RSA_X931_PADDING)
    ∧ (0x10000000 < version → ∀ name, strcasecmp_eq name "pss" = true →
        get_padding version (some name) = RSA_PKCS1_PSS_PADDING)
    ∧ (version ≤ 0x10000000 → ∀ name, strcasecmp_eq name "pss" = true →
        get_padding version (some name) = 0)
    ∧ [RSA_PKCS1_PADDING, RSA_SSLV23_PADDING, RSA_NO_PADDING, RSA_PKCS1_OAEP_PADDING,
        RSA_X931_PADDING, RSA_PKCS1_PSS_PADDING].Nodup
    ∧ (0 : Int) ∉ [RSA_PKCS1_PADDING, RSA_SSLV23_PADDING, RSA_NO_PADDING,
        RSA_PKCS1_OAEP_PADDING, RSA_X931_PADDING, RSA_PKCS1_PSS_PADDING] := by
  refine ⟨rfl, ?_, ?_, ?_, ?_, ?_, ?_, ?_, by decide, by decide⟩
  · intro name h
    simp [get_padding, h]
  · intro name h
    have h1 : strcasecmp_eq name "pkcs1" = false := by
      rw [strcasecmp_eq_congr name "sslv23" _ h]; decide
    simp [get_padding, h, h1]
  · intro name h
    have h1 : strcasecmp_eq name "pkcs1" = false := by
      rw [strcasecmp_eq_congr name "no" _ h]; decide
    have h2 : strcasecmp_eq name "sslv23" = false := by
      rw [strcasecmp_eq_congr name "no" _ h]; decide
    simp [get_padding, h, h1, h2]
  · intro name h
    have h1 : strcasecmp_eq name "pkcs1" = false := by
      rw [strcasecmp_eq_congr name "oaep" _ h]; decide
    have h2 : strcasecmp_eq name "sslv23" = false := by
      rw [strcasecmp_eq_congr name "oaep" _ h]; decide
    have h3 : strcasecmp_eq name "no" = false := by
      rw [strcasecmp_eq_congr name "oaep" _ h]; decide
    simp [get_padding, h, h1, h2, h3]
  · intro name h
    have h1 : strcasecmp_eq name "pkcs1" = false := by
      rw [strcasecmp_eq_congr name "x931" _ h]; decide
    have h2 : strcasecmp_eq name "sslv23" = false := by
      rw [strcasecmp_eq_congr name "x931" _ h]; decide
    have h3 : strcasecmp_eq name "no" = false := by
      rw [strcasecmp_eq_congr name "x931" _ h]; decide
    have h4 : strcasecmp_eq name "oaep" = false := by
      rw [strcasecmp_eq_congr name "x931" _ h]; decide
    simp [get_padding, h, h1, h2, h3, h4]
  · intro hv name h
    have h1 : strcasecmp_eq name "pkcs1" = false := by
      rw [strcasecmp_eq_congr name "pss" _ h]; decide
    have h2 : strcasecmp_eq name "sslv23" = false := by
      rw [strcasecmp_eq_congr name "pss" _ h]; decide
    have h3 : strcasecmp_eq name "no" = false := by
      rw [strcasecmp_eq_congr name "pss" _ h]; decide
    have h4 : strcasecmp_eq name "oaep" = false := by
      rw [strcasecmp_eq_congr name "pss" _ h]; decide
    have h5 : strcasecmp_eq name "x931" = false := by
      rw [strcasecmp_eq_congr name "pss" _ h]; decide
    simp [get_padding, h, h1, h2, h3, h4, h5, hv]
  · intro hv name h
    have h1 : strcasecmp_eq name "pkcs1" = false := by
      rw [strcasecmp_eq_congr name "pss" _ h]; decide
    have h2 : strcasecmp_eq name "sslv23" = false := by
      rw [strcasecmp_eq_congr name "pss" _ h]; decide
    have h3 : strcasecmp_eq name "no" = false := by
      rw [strcasecmp_eq_congr name "pss" _ h]; decide
    have h4 : strcasecmp_eq name "oaep" = false := by
      rw [strcasecmp_eq_congr name "pss" _ h]; decide
    have h5 : strcasecmp_eq name "x931" = false := by
      rw [strcasecmp_eq_congr name "pss" _ h]; decide
    have hv' : ¬ (268435456 < version) := by
      have : version ≤ 268435456 := hv
      omega
    simp [get_padding, h, h1, h2, h3, h4, h5, hv']

/-- C12 (amended), at concrete names in a build against OpenSSL 1.0.1, and at
"PSS" in a build against OpenSSL 0.9.8. -/
theorem get_padding_names_witness :
    get_padding 0x1000105f (some "PKCS1") = RSA_PKCS1_PADDING
    ∧ get_padding 0x1000105f (some "SslV23") = RSA_SSLV23_PADDING
    ∧ get_padding 0x1000105f (some "No") = RSA_NO_PADDING
    ∧ get_padding 0x1000105f (some "OAEP") = RSA_PKCS1_OAEP_PADDING
    ∧ get_padding 0x1000105f (some "X931") = RSA_X931_PADDING
    ∧ get_padding 0x1000105f (some "PSS") = RSA_PKCS1_PSS_PADDING
    ∧ get_padding 0x0090810f (some "PSS") = 0 :=
  ⟨(get_padding_names 0x1000105f).2.1 "PKCS1" (by decide),
   (get_padding_names 0x1000105f).2.2.1 "SslV23" (by decide),
   (get_padding_names 0x1000105f).2.2.2.1 "No" (by decide),
   (get_padding_names 0x1000105f).2.2.2.2.1 "OAEP" (by decide),
   (get_padding_names 0x1000105f).2.2.2.2.2.1 "X931" (by decide),
   (get_padding_names 0x1000105f).2.2.2.2.2.2.1 (by decide) "PSS" (by decide),
   (get_padding_names 0x0090810f).2.2.2.2.2.2.2.1 (by decide) "PSS" (by decide)⟩

/-- C13: `pkey.read(bytes, true)` gives the key the PEM public-key decoder reads
from the bytes; if that decoder fails, the key the DER public-key decoder reads
from the same bytes; if both fail it returns nil and raises nothing.  The same
holds when `want_public` is left out. -/
theorem read_public_key_from_bytes (lib : OpenSSL) (s : String) :
    openssl_pkey_read lib [.str s, .boolean true]
      = (match lib.PEM_read_PUBKEY s with
         | some k => .ok [PUSH_OBJECT k "openssl.evp_pkey"]
         | none =>
           match lib.d2i_PUBKEY s with
           | some k => .ok [PUSH_OBJECT k "openssl.evp_pkey"]
           | none => .ok [.nil])
    ∧ openssl_pkey_read lib [.str s] = openssl_pkey_read lib [.str s, .boolean true] := by
  constructor
  · cases h1 : lib.PEM_read_PUBKEY s with
    | some k =>
      simp [openssl_pkey_read, lua_arg, auxiliar_getclassudata, lua_isstring, lua_toboolean,
        luaL_checklstring, h1, bind, Except.bind, pure, Except.pure]
    | none =>
      cases h2 : lib.d2i_PUBKEY s <;>
        simp [openssl_pkey_read, lua_arg, auxiliar_getclassudata, lua_isstring, lua_toboolean,
          luaL_checklstring, h1, h2, bind, Except.bind, pure, Except.pure]
  · simp [openssl_pkey_read, lua_arg, auxiliar_getclassudata, lua_isstring, lua_toboolean,
      luaL_checklstring, bind, Except.bind, pure, Except.pure]

/-- C14 (code defect): `pkey.new` with a `dsa` table giving `p`, `q`, `g` and with
a `dh` table giving `p`, `g` runs key-pair generation and returns the key; but
with `g` missing from either table it still returns a key object, the empty
`EVP_PKEY` (no type, no material) made before the fields were read. -/
theorem pkey_new_missing_domain_parameter_returns_empty_key :
    openssl_pkey_new Demo.lib
        [.table [] [("dsa", .table [] [("p", .str "17"), ("q", .str "0B"), ("g", .str "04")])]]
      = .ok [PUSH_OBJECT
          { type := EVP_PKEY_DSA,
            pkey := .dsa { p := some 23, q := some 11, g := some 4, priv_key := some 7,
                           pub_key := some 8 } } "openssl.evp_pkey"]
    ∧ openssl_pkey_new Demo.lib
        [.table [] [("dh", .table [] [("p", .str "17"), ("g", .str "05")])]]
      = .ok [PUSH_OBJECT
          { type := EVP_PKEY_DH,
            pkey := .dh { p := some 23, g := some 5, priv_key := some 6, pub_key := some 8 } }
          "openssl.evp_pkey"]
    ∧ openssl_pkey_new Demo.lib
        [.table [] [("dsa", .table [] [("p", .str "17"), ("q", .str "0B")])]]
      = .ok [PUSH_OBJECT { type := EVP_PKEY_NONE, pkey := .null } "openssl.evp_pkey"]
    ∧ openssl_pkey_new Demo.lib [.table [] [("dh", .table [] [("p", .str "17")])]]
      = .ok [PUSH_OBJECT { type := EVP_PKEY_NONE, pkey := .null } "openssl.evp_pkey"] := by
  refine ⟨rfl, rfl, rfl, rfl⟩

/-- C15 (code defect): `pkey.new("rsa", 8)`, for which the RSA generation
primitive fails, raises no error and returns a key object of type RSA without
material, also under the name "RSA" and with an explicit exponent; the `dh`
branch next to it raises when its generation primitive fails. -/
theorem pkey_new_rsa_generation_failure_returns_key :
    Demo.lib.RSA_generate_key 8 65537 = none
    ∧ openssl_pkey_new Demo.lib [.str "rsa", .number 8]
      = .ok [PUSH_OBJECT { type := EVP_PKEY_RSA, pkey := .null } "openssl.evp_pkey"]
    ∧ openssl_pkey_new Demo.lib [.str "RSA", .number 8, .number 3]
      = .ok [PUSH_OBJECT { type := EVP_PKEY_RSA, pkey := .null } "openssl.evp_pkey"]
    ∧ openssl_pkey_new Demo.lib [.str "dh", .number 8]
      = .error (.error "DH_generate_parameters_ex failed") := by
  refine ⟨rfl, rfl, rfl, rfl⟩

/-- The base type `EVP_PKEY_type` gives is never one of the alias tags. -/
theorem EVP_PKEY_type_not_alias (t : Nat) :
    EVP_PKEY_type t ≠ EVP_PKEY_RSA2 ∧ EVP_PKEY_type t ≠ EVP_PKEY_DSA2
    ∧ EVP_PKEY_type t ≠ EVP_PKEY_DSA3 ∧ EVP_PKEY_type t ≠ EVP_PKEY_DSA4 := by
  unfold EVP_PKEY_type
  split_ifs <;> decide

/-- C16 (counterexample): raw export of an EC key raises no error; the call
returns no values. -/
theorem export_raw_ec_counterexample :
    openssl_pkey_export Demo.lib
        [PUSH_OBJECT { type := EVP_PKEY_EC, pkey := .ec { curve := NID_secp192k1,
                                                          generated := true } }
           "openssl.evp_pkey", .boolean true]
      = .ok [] := by
  rfl

/-- C16 (amended): `pkey.export(key, true)` on a key whose algorithm is none of
RSA, DSA, DH calls no writer, returns no values and raises no error; on a DH key
it calls the domain-parameter writer on the DH material whatever the key's
private-ness, and returns what that writer wrote. -/
theorem export_raw_unsupported_or_dh (lib : OpenSSL) (k : EVP_PKEY) :
    (EVP_PKEY_type k.type ≠ EVP_PKEY_RSA → EVP_PKEY_type k.type ≠ EVP_PKEY_DSA →
        EVP_PKEY_type k.type ≠ EVP_PKEY_DH →
        pkey_export_call lib [PUSH_OBJECT k "openssl.evp_pkey", .boolean true] = .ok none
        ∧ openssl_pkey_export lib [PUSH_OBJECT k "openssl.evp_pkey", .boolean true] = .ok [])
    ∧ (∀ d : DH, k.type = EVP_PKEY_DH → k.dh = some d →
        pkey_export_call lib [PUSH_OBJECT k "openssl.evp_pkey", .boolean true]
          = .ok (some (.DHparams (some d)))
        ∧ openssl_pkey_export lib [PUSH_OBJECT k "openssl.evp_pkey", .boolean true]
          = (match lib.PEM_write (.DHparams (some d)) with
             | some out => .ok [.str out]
             | none => .ok [])) := by
  obtain ⟨t, ptr⟩ := k
  constructor
  · intro h1 h2 h3
    have hr : ¬ (t = 6 ∨ t = 19) := by
      intro h
      exact h1 (by simp [EVP_PKEY_type, EVP_PKEY_RSA, EVP_PKEY_RSA2, h])
    have hd : ¬ (t = 116 ∨ t = 67 ∨ t = 66 ∨ t = 113 ∨ t = 70) := by
      intro h
      apply h2
      simp only [EVP_PKEY_type, EVP_PKEY_RSA, EVP_PKEY_RSA2, EVP_PKEY_DSA, EVP_PKEY_DSA1,
        EVP_PKEY_DSA2, EVP_PKEY_DSA3, EVP_PKEY_DSA4]
      rw [if_neg hr, if_pos h]
    have hh : ¬ (t = 28) := by
      intro h
      apply h3
      simp only [EVP_PKEY_type, EVP_PKEY_RSA, EVP_PKEY_RSA2, EVP_PKEY_DSA, EVP_PKEY_DSA1,
        EVP_PKEY_DSA2, EVP_PKEY_DSA3, EVP_PKEY_DSA4, EVP_PKEY_DH]
      rw [if_neg hr, if_neg hd, if_pos h]
    obtain ⟨a1, a2, a3, a4⟩ := EVP_PKEY_type_not_alias t
    have hcall : pkey_export_call lib
        [PUSH_OBJECT { type := t, pkey := ptr } "openssl.evp_pkey", .boolean true]
          = .ok none := by
      simp [pkey_export_call, openssl_is_private_key, PUSH_OBJECT, CHECK_OBJECT, lua_arg,
        lua_isnoneornil, lua_toboolean, luaL_optlstring, Obj.asPkey, hr, hd, hh, h1, h2, h3,
        a1, a2, a3, a4, EVP_PKEY_RSA, EVP_PKEY_RSA2, EVP_PKEY_DSA, EVP_PKEY_DSA1,
        EVP_PKEY_DSA2, EVP_PKEY_DSA3, EVP_PKEY_DSA4, EVP_PKEY_DH, bind, Except.bind, pure,
        Except.pure]
      have c1 : ¬ (EVP_PKEY_type t = 6 ∨ EVP_PKEY_type t = 19) := by
        rintro (h | h)
        · exact h1 h
        · exact a1 h
      have c2 : ¬ (EVP_PKEY_type t = 116 ∨ EVP_PKEY_type t = 66 ∨ EVP_PKEY_type t = 113
          ∨ EVP_PKEY_type t = 70) := by
        rintro (h | h | h | h)
        · exact h2 h
        · exact a2 h
        · exact a3 h
        · exact a4 h
      have c3 : ¬ (EVP_PKEY_type t = 28) := fun h => h3 h
      rw [if_neg c1, if_neg c2, if_neg c3]
    refine ⟨hcall, ?_⟩
    simp [openssl_pkey_export, hcall, bind, Except.bind, pure, Except.pure]
  · intro d ht hdh
    have ht' : t = 28 := ht
    subst ht'
    cases ptr with
    | dh d0 =>
      have hd0 : d0 = d := by simpa [EVP_PKEY.dh] using hdh
      subst hd0
      obtain ⟨p, g, x, y⟩ := d0
      have hcall : pkey_export_call lib
          [PUSH_OBJECT { type := 28, pkey := .dh { p := p, g := g, priv_key := x, pub_key := y } }
            "openssl.evp_pkey", .boolean true]
            = .ok (some (.DHparams (some { p := p, g := g, priv_key := x, pub_key := y }))) := by
        cases p <;> cases x <;>
          simp [pkey_export_call, openssl_is_private_key, PUSH_OBJECT, CHECK_OBJECT, lua_arg,
            lua_isnoneornil, lua_toboolean, luaL_optlstring, Obj.asPkey, EVP_PKEY.dh,
            EVP_PKEY_type, EVP_PKEY_RSA, EVP_PKEY_RSA2, EVP_PKEY_DSA, EVP_PKEY_DSA1,
            EVP_PKEY_DSA2, EVP_PKEY_DSA3, EVP_PKEY_DSA4, EVP_PKEY_DH, bind, Except.bind, pure,
            Except.pure]
      refine ⟨hcall, ?_⟩
      simp only [openssl_pkey_export, hcall, bind, Except.bind, pure, Except.pure]
      cases hw : lib.PEM_write (.DHparams (some { p := p, g := g, priv_key := x, pub_key := y }))
        with
      | none => rfl
      | some out => simp [lua_pushlstring_full out out.length rfl]
    | _ => simp [EVP_PKEY.dh] at hdh

/-- C17: `verify` returns as its single result the integer the verification
primitive reports, unchanged, and raises nothing: with the digest left out (SHA-1
default), named by a string (the registry's handle, SHA-1 when the name does not
resolve), or passed as a digest handle. -/
theorem verify_returns_primitive_result (lib : OpenSSL) (data signature : String)
    (k : EVP_PKEY) :
    openssl_verify lib [.str data, .str signature, PUSH_OBJECT k "openssl.evp_pkey"]
      = .ok [.number (lib.EVP_VerifyFinal lib.sha1 data signature (some k))]
    ∧ (∀ name : String,
        openssl_verify lib
            [.str data, .str signature, PUSH_OBJECT k "openssl.evp_pkey", .str name]
          = .ok [.number (lib.EVP_VerifyFinal
              ((lib.EVP_get_digestbyname name).getD lib.sha1) data signature (some k))])
    ∧ (∀ md : EVP_MD,
        openssl_verify lib
            [.str data, .str signature, PUSH_OBJECT k "openssl.evp_pkey",
             .userdata "openssl.evp_digest" (.md md)]
          = .ok [.number (lib.EVP_VerifyFinal md data signature (some k))]) := by
  refine ⟨?_, ?_, ?_⟩
  · simp [openssl_verify, digest_arg, PUSH_OBJECT, CHECK_OBJECT, lua_arg, luaL_checklstring,
      Obj.asPkey, bind, Except.bind, pure, Except.pure]
  · intro name
    cases h : lib.EVP_get_digestbyname name <;>
      simp [openssl_verify, digest_arg, PUSH_OBJECT, CHECK_OBJECT, lua_arg, luaL_checklstring,
        lua_isstring, Obj.asPkey, h, bind, Except.bind, pure, Except.pure]
  · intro md
    simp [openssl_verify, digest_arg, PUSH_OBJECT, CHECK_OBJECT, lua_arg, luaL_checklstring,
      lua_isstring, lua_isuserdata, Obj.asPkey, Obj.asMd, bind, Except.bind, pure, Except.pure]

/-- C16 (amended), at concrete keys in the demo library: an EC key, and a DH key
with and without `priv_key`. -/
theorem export_raw_unsupported_or_dh_witness :
    (pkey_export_call Demo.lib
        [PUSH_OBJECT { type := EVP_PKEY_EC, pkey := .ec { curve := NID_secp192k1,
                                                          generated := true } }
           "openssl.evp_pkey", .boolean true] = .ok none
      ∧ openssl_pkey_export Demo.lib
        [PUSH_OBJECT { type := EVP_PKEY_EC, pkey := .ec { curve := NID_secp192k1,
                                                          generated := true } }
           "openssl.evp_pkey", .boolean true] = .ok [])
    ∧ (pkey_export_call Demo.lib
        [PUSH_OBJECT { type := EVP_PKEY_DH,
                       pkey := .dh { p := some 23, g := some 5, priv_key := some 6,
                                     pub_key := some 8 } } "openssl.evp_pkey", .boolean true]
        = .ok (some (.DHparams (some { p := some 23, g := some 5, priv_key := some 6,
                                       pub_key := some 8 })))
      ∧ openssl_pkey_export Demo.lib
        [PUSH_OBJECT { type := EVP_PKEY_DH,
                       pkey := .dh { p := some 23, g := some 5, priv_key := some 6,
                                     pub_key := some 8 } } "openssl.evp_pkey", .boolean true]
        = .ok [.str "DH PARAMETERS"])
    ∧ (pkey_export_call Demo.lib
        [PUSH_OBJECT { type := EVP_PKEY_DH,
                       pkey := .dh { p := some 23, g := some 5, priv_key := none,
                                     pub_key := some 8 } } "openssl.evp_pkey", .boolean true]
        = .ok (some (.DHparams (some { p := some 23, g := some 5, priv_key := none,
                                       pub_key := some 8 })))
      ∧ openssl_pkey_export Demo.lib
        [PUSH_OBJECT { type := EVP_PKEY_DH,
                       pkey := .dh { p := some 23, g := some 5, priv_key := none,
                                     pub_key := some 8 } } "openssl.evp_pkey", .boolean true]
        = .ok [.str "DH PARAMETERS"]) :=
  ⟨(export_raw_unsupported_or_dh Demo.lib
      { type := EVP_PKEY_EC, pkey := .ec { curve := NID_secp192k1, generated := true } }).1
      (by decide) (by decide) (by decide),
   (export_raw_unsupported_or_dh Demo.lib
      { type := EVP_PKEY_DH,
        pkey := .dh { p := some 23, g := some 5, priv_key := some 6, pub_key := some 8 } }).2
      _ rfl rfl,
   (export_raw_unsupported_or_dh Demo.lib
      { type := EVP_PKEY_DH,
        pkey := .dh { p := some 23, g := some 5, priv_key := none, pub_key := some 8 } }).2
      _ rfl rfl⟩

/-- A read of a slot no store went to finds nothing. -/
theorem CArray.get_unwritten {α : Type} (a : CArray α) (i : Nat)
    (h : i ∉ a.stores.map (fun s => s.1)) : a.get i = none := by
  unfold CArray.get
  have hf : a.stores.find? (fun s => s.1 == i) = none := by
    rw [List.find?_eq_none]
    intro s hs
    simp only [beq_iff_eq, Bool.not_eq_true]
    intro hsi
    exact h (List.mem_map.2 ⟨s, hs, hsi⟩)
  rw [hf]

/-- One pass of the key loop on a table of key objects, at an index inside the
table: the pass stores a key and a buffer at that very index. -/
theorem seal_collect_step_stores (lib : OpenSSL) (keys : List EVP_PKEY) (st : SealArrays)
    (i : Nat) (h1 : 1 ≤ i) (h2 : i ≤ keys.length) :
    ∃ k, keys.get? (i - 1) = some k
      ∧ seal_collect_step lib (keys.map (fun k => PUSH_OBJECT k "openssl.evp_pkey")) st i
        = .ok { pkeys := st.pkeys.set i k, eks := st.eks.set i (lib.EVP_PKEY_size k + 1) } := by
  have hlt : i - 1 < keys.length := by omega
  refine ⟨keys.get ⟨i - 1, hlt⟩, List.get?_eq_get hlt, ?_⟩
  have hi : i ≠ 0 := by omega
  simp [seal_collect_step, lua_rawgeti, hi, List.getElem?_eq_getElem hlt, PUSH_OBJECT,
    CHECK_OBJECT, Obj.asPkey, bind, Except.bind, pure, Except.pure]

/-- The key loop run over the indices `s .. s+m-1`, all inside a table of key
objects: it succeeds, keeps the sizes, and stores at exactly those indices, in
both arrays. -/
theorem seal_collect_fold (lib : OpenSSL) (keys : List EVP_PKEY) :
    ∀ (m s : Nat) (st : SealArrays), 1 ≤ s → s + m ≤ keys.length + 1 →
      ∃ st', (List.range' s m).foldlM
            (seal_collect_step lib (keys.map (fun k => PUSH_OBJECT k "openssl.evp_pkey"))) st
          = .ok st'
        ∧ st'.pkeys.size = st.pkeys.size ∧ st'.eks.size = st.eks.size
        ∧ st'.pkeys.written = st.pkeys.written ++ List.range' s m
        ∧ st'.eks.written = st.eks.written ++ List.range' s m := by
  intro m
  induction m with
  | zero =>
    intro s st _ _
    exact ⟨st, rfl, rfl, rfl, by simp, by simp⟩
  | succ m ih =>
    intro s st h1 h2
    obtain ⟨k, _, hstep⟩ := seal_collect_step_stores lib keys st s h1 (by omega)
    obtain ⟨st', hfold, hp, he, hwp, hwe⟩ :=
      ih (s + 1) { pkeys := st.pkeys.set s k, eks := st.eks.set s (lib.EVP_PKEY_size k + 1) }
        (by omega) (by omega)
    refine ⟨st', ?_, ?_, ?_, ?_, ?_⟩
    · rw [List.range'_succ, List.foldlM_cons, hstep]
      exact hfold
    · rw [hp]; rfl
    · rw [he]; rfl
    · rw [hwp, List.range'_succ]
      simp [CArray.written, CArray.set]
    · rw [hwe, List.range'_succ]
      simp [CArray.written, CArray.set]

/-- The key loop of `seal` on any non-empty table of `N` key objects: it stores at
the indices `1 .. N` of arrays of `N` slots, so it stores at index `N`, outside
the slots `0 .. N-1`, and never stores slot 0, which the sealing primitive and
the result loop read. -/
theorem seal_collect_indices (lib : OpenSSL) (keys : List EVP_PKEY) (hne : keys ≠ []) :
    ∃ arrays,
      seal_collect lib (keys.map (fun k => PUSH_OBJECT k "openssl.evp_pkey")) keys.length
        = .ok arrays
      ∧ arrays.pkeys.size = keys.length ∧ arrays.eks.size = keys.length
      ∧ arrays.pkeys.written = List.range' 1 keys.length
      ∧ arrays.eks.written = List.range' 1 keys.length
      ∧ keys.length ∈ arrays.pkeys.written ∧ keys.length ∈ arrays.eks.written
      ∧ arrays.pkeys.get 0 = none ∧ arrays.eks.get 0 = none := by
  have hlen : 0 < keys.length := List.length_pos.2 hne
  obtain ⟨st', hfold, hp, he, hwp, hwe⟩ :=
    seal_collect_fold lib keys keys.length 1
      { pkeys := CArray.alloc keys.length, eks := CArray.alloc keys.length } (le_refl 1) (by omega)
  have hwp' : st'.pkeys.written = List.range' 1 keys.length := by
    rw [hwp]; simp [CArray.written, CArray.alloc]
  have hwe' : st'.eks.written = List.range' 1 keys.length := by
    rw [hwe]; simp [CArray.written, CArray.alloc]
  have hmem : keys.length ∈ List.range' 1 keys.length := by
    rw [List.mem_range']
    exact ⟨keys.length - 1, by omega, by omega⟩
  have h0 : 0 ∉ List.range' 1 keys.length := by
    rw [List.mem_range']
    rintro ⟨i, _, hi⟩
    omega
  refine ⟨st', hfold, hp, he, hwp', hwe', hwp' ▸ hmem, hwe' ▸ hmem, ?_, ?_⟩
  · apply CArray.get_unwritten
    intro hin
    apply h0
    rw [← hwp']
    unfold CArray.written
    exact List.mem_reverse.2 hin
  · apply CArray.get_unwritten
    intro hin
    apply h0
    rw [← hwe']
    unfold CArray.written
    exact List.mem_reverse.2 hin

/-- On every non-empty table of key objects the key loop leaves one of the slots
`0 .. N-1` unset, so what `EVP_SealInit` and the result loop do with those slots
is undefined on every such call. -/
theorem seal_slots_never_all_stored (lib : OpenSSL) (keys : List EVP_PKEY) (hne : keys ≠ []) :
    ∃ arrays,
      seal_collect lib (keys.map (fun k => PUSH_OBJECT k "openssl.evp_pkey")) keys.length
        = .ok arrays
      ∧ seal_slots_stored arrays keys.length = false := by
  obtain ⟨arrays, hc, _, _, _, _, _, _, hp0, _⟩ := seal_collect_indices lib keys hne
  refine ⟨arrays, hc, ?_⟩
  have hlen : 0 < keys.length := List.length_pos.2 hne
  cases hs : seal_slots_stored arrays keys.length with
  | false => rfl
  | true =>
    unfold seal_slots_stored at hs
    have h0 := (List.all_eq_true.1 hs) 0 (List.mem_range.2 hlen)
    simp [hp0] at h0

/-- C9 (code defect): sealing "hi" (total length 2) and sealing "" (total length
0) for one recipient both get past `EVP_SealUpdate`, but on both calls slot 0 of
`pkeys` and of `eks` was never stored by the key loop: `EVP_SealInit` has written
the encrypted key through `eks[0] == NULL`, and for the positive length the
result loop stores through it again.  The two values of the positive case are
therefore not a return of a defined run; the key list the embedding shows has the
indeterminate entry in place of the recipient's blob. -/
theorem seal_return_rests_on_unset_slot :
    seal_begin Demo.lib [.str "hi", .table [Demo.keyVal (Demo.rsaPublic 33)] []]
      = .ok { cipher := Demo.lib.EVP_rc4, key := "K", data := "hi", eks := [none],
              out1 := "kl" }
    ∧ seal_total Demo.lib
        { cipher := Demo.lib.EVP_rc4, key := "K", data := "hi", eks := [none], out1 := "kl" }
      = 2
    ∧ openssl_seal Demo.lib [.str "hi", .table [Demo.keyVal (Demo.rsaPublic 33)] []]
      = .ok [.str "kl", .table [.indet] []]
    ∧ seal_begin Demo.lib [.str "", .table [Demo.keyVal (Demo.rsaPublic 33)] []]
      = .ok { cipher := Demo.lib.EVP_rc4, key := "K", data := "", eks := [none], out1 := "" }
    ∧ seal_total Demo.lib
        { cipher := Demo.lib.EVP_rc4, key := "K", data := "", eks := [none], out1 := "" }
      = 0
    ∧ (seal_collect Demo.lib [Demo.keyVal (Demo.rsaPublic 33)] 1).map
        (fun a => (seal_slots_stored a 1, a.pkeys.get 0, a.eks.get 0))
      = .ok (false, none, none) := by
  refine ⟨rfl, rfl, rfl, rfl, rfl, rfl⟩

/-- C18 (code defect): in `seal` with one recipient key the key loop stores the
key and its buffer at index 1 of arrays of one slot, outside `0 .. 0`, and leaves
slot 0 of both arrays unset, the slot the sealing primitive and the result loop
read; with two recipients it stores at indices 1 and 2 of arrays of two slots and
again leaves slot 0 unset. -/
theorem seal_key_loop_out_of_range :
    (seal_collect Demo.lib [Demo.keyVal (Demo.rsaPublic 33)] 1).map
        (fun a => (a.pkeys.size, a.pkeys.written, a.eks.size, a.eks.written,
                   a.pkeys.get 0, a.eks.get 0))
      = .ok (1, [1], 1, [1], none, none)
    ∧ (seal_collect Demo.lib
          [Demo.keyVal (Demo.rsaPublic 33), Demo.keyVal (Demo.rsaPublic 35)] 2).map
        (fun a => (a.pkeys.size, a.pkeys.written, a.eks.size, a.eks.written,
                   a.pkeys.get 0, a.eks.get 0, a.pkeys.get 2))
      = .ok (2, [1, 2], 2, [1, 2], none, none, some (Demo.rsaPublic 35))
    ∧ EVP_SealInit Demo.lib Demo.lib.EVP_rc4
        { pkeys := (CArray.alloc 1).set 1 (Demo.rsaPublic 33),
          eks := (CArray.alloc 1).set 1 9 } 1
      = some ("K", [none]) := by
  refine ⟨rfl, rfl, rfl⟩

end LuaOpenSSL
